import Mathlib

/-!
# Secure-CRM-system: verification of the Application & Document Workflow

Shallow embedding of the repository's core workflow code
(`src/app.py`, `src/encryption.py`, `src/database.py`) together with
proofs settling the specification's claims about it.

* `Vault` models `src/encryption.py` (`EncryptionService`): AES-256-CBC
  with PKCS#7 padding and base64 transport encoding.  The AES block
  permutation itself lives in the external `pycryptodome` library, so it
  is a parameter of the embedding (`E`/`D`), constrained exactly by the
  library's contract (a length-preserving permutation of 16-byte blocks).
* `CRM` models the route handlers of `src/app.py` that the claims name:
  `forward_application`, `make_decision`, `update_application_status`,
  `verify_document`, `reassign_counsellor`.  The database tables are
  lists of rows; `db.execute_one` is `List.find?`; an `UPDATE ... WHERE`
  is a map over matching rows; every `execute_query(..., fetch=False)`
  commits on its own (see `Database.execute_query` in `src/database.py`),
  which the embedding mirrors by threading the state through each step.
-/

namespace Vault

/-- A byte, as handled by `encrypt_document` / `decrypt_document`. -/
abbrev Byte := Fin 256

/-- Bytewise XOR (the CBC chaining operation). -/
def bxor (a b : Byte) : Byte :=
  ⟨a.val ^^^ b.val, Nat.xor_lt_two_pow (n := 8) a.isLt b.isLt⟩

/-- XOR of two equal-length byte blocks. -/
def blockXor (a b : List Byte) : List Byte := List.zipWith bxor a b

/-- Number of padding bytes PKCS#7 appends to a payload of length `l`
(`Crypto.Util.Padding.pad` with `block_size = 16`): always in `1..16`. -/
def padLen (l : Nat) : Nat := 16 - l % 16

/-- PKCS#7 padding to the AES block size, as applied by
`pad(data, AES.block_size)` in `encrypt_document`. -/
def pad16 (data : List Byte) : List Byte :=
  data ++ List.replicate (padLen data.length)
    ⟨padLen data.length, by unfold padLen; omega⟩

/-- PKCS#7 unpadding, as applied by `unpad(..., AES.block_size)` in
`decrypt_document`; `none` models the `ValueError` the library raises on
incorrect padding. -/
def unpad16 (l : List Byte) : Option (List Byte) :=
  if l.length % 16 ≠ 0 then none
  else
    match l.getLast? with
    | none => none
    | some last =>
      let n := last.val
      if n = 0 ∨ 16 < n then none
      else if (l.drop (l.length - n)).all (fun b => b.val = n) then
        some (l.take (l.length - n))
      else none

/-- Split a byte string into 16-byte cipher blocks (how AES-CBC consumes
its input). -/
def chunk16 (l : List Byte) : List (List Byte) :=
  if l = [] then [] else l.take 16 :: chunk16 (l.drop 16)
termination_by l.length
decreasing_by
  simp only [List.length_drop]
  have : l.length ≠ 0 := fun h => by
    exact absurd (List.eq_nil_of_length_eq_zero h) (by assumption)
  omega

/-- CBC encryption of a block sequence: each plaintext block is XORed
with the previous ciphertext block (initially the IV) before the block
cipher `E` is applied.  This is `AES.new(key, AES.MODE_CBC, iv).encrypt`
with the AES-256 permutation abstracted as `E`. -/
def cbcEncryptBlocks (E : List Byte → List Byte) :
    List Byte → List (List Byte) → List (List Byte)
  | _, [] => []
  | prev, p :: ps =>
    let c := E (blockXor p prev)
    c :: cbcEncryptBlocks E c ps

/-- CBC decryption of a block sequence (`cipher.decrypt` with the inverse
permutation `D`). -/
def cbcDecryptBlocks (D : List Byte → List Byte) :
    List Byte → List (List Byte) → List (List Byte)
  | _, [] => []
  | prev, c :: cs =>
    blockXor (D c) prev :: cbcDecryptBlocks D c cs

/-- The base64 alphabet used by `base64.b64encode`. -/
def b64chars : List Char :=
  "ABCDEFGHIJKLMNOPQRSTUVWXYZabcdefghijklmnopqrstuvwxyz0123456789+/".toList

/-- Character for a 6-bit group. -/
def encChar (s : Nat) : Char := b64chars.getD (s % 64) 'A'

/-- Value of a base64 character (`none` on a character outside the
alphabet). -/
def decChar (c : Char) : Option Nat :=
  let i := b64chars.indexOf c
  if i < 64 then some i else none

/-- Model of `base64.b64encode` over raw bytes: 3-byte groups become 4 characters,
a trailing group of 1 or 2 bytes is padded with `=`. -/
def b64encode : List Byte → List Char
  | b0 :: b1 :: b2 :: rest =>
    let g := b0.val * 65536 + b1.val * 256 + b2.val
    encChar (g / 262144) :: encChar (g / 4096) :: encChar (g / 64) ::
      encChar g :: b64encode rest
  | [b0, b1] =>
    let g := b0.val * 65536 + b1.val * 256
    [encChar (g / 262144), encChar (g / 4096), encChar (g / 64), '=']
  | [b0] =>
    let g := b0.val * 65536
    [encChar (g / 262144), encChar (g / 4096), '=', '=']
  | [] => []

/-- Build a byte from an in-range value. -/
def mkByte (n : Nat) : Byte := ⟨n % 256, Nat.mod_lt _ (by norm_num)⟩

/-- Model of `base64.b64decode`: 4 characters yield 3 bytes; `=`-padding marks a
short final group. -/
def b64decode : List Char → Option (List Byte)
  | [] => some []
  | c0 :: c1 :: c2 :: c3 :: rest =>
    if c2 = '=' then
      if c3 = '=' ∧ rest = [] then do
        let s0 ← decChar c0
        let s1 ← decChar c1
        pure [mkByte (s0 * 4 + s1 / 16)]
      else none
    else if c3 = '=' then
      if rest = [] then do
        let s0 ← decChar c0
        let s1 ← decChar c1
        let s2 ← decChar c2
        pure [mkByte (s0 * 4 + s1 / 16), mkByte (s1 % 16 * 16 + s2 / 4)]
      else none
    else do
      let s0 ← decChar c0
      let s1 ← decChar c1
      let s2 ← decChar c2
      let s3 ← decChar c3
      let g := s0 * 262144 + s1 * 4096 + s2 * 64 + s3
      let bs ← b64decode rest
      pure (mkByte (g / 65536) :: mkByte (g / 256) :: mkByte g :: bs)
  | _ => none

/-- Model of `EncryptionService.encrypt_document`: pad, CBC-encrypt under the
block permutation `E` with the per-call random IV, and base64-encode
both the ciphertext and the IV. -/
def encrypt_document (E : List Byte → List Byte) (iv : List Byte)
    (data : List Byte) : List Char × List Char :=
  let ct := (cbcEncryptBlocks E iv (chunk16 (pad16 data))).flatten
  (b64encode ct, b64encode iv)

/-- Model of `EncryptionService.decrypt_document`: base64-decode, CBC-decrypt
under the inverse permutation `D`, and unpad; `none` models the raised
`Exception("Decryption failed: ...")`. -/
def decrypt_document (D : List Byte → List Byte)
    (encB64 ivB64 : List Char) : Option (List Byte) := do
  let ct ← b64decode encB64
  let iv ← b64decode ivB64
  unpad16 ((cbcDecryptBlocks D iv (chunk16 ct)).flatten)

end Vault


namespace CRM

/-!
Shallow embedding of the workflow route handlers of `src/app.py`.

The authenticated request context (`request.user_id`, `request.role_id`,
and the `current_user` row the handlers re-read from `users`) is passed
as a `UserRow` argument.  Timestamps (`datetime.now()` / `NOW()`) and the
client IP (`get_client_ip`) are opaque string parameters.  Role ids are
as in the decorators: 1 SuperAdmin, 2 Admin, 3 Counsellor,
4 UniversityStaff, 6 Student.
-/

/-- ASCII lower-casing of one character, as Python's `str.lower` acts on
the ASCII strings the handlers compare. -/
def lowerChar (c : Char) : Char :=
  if 65 ≤ c.toNat ∧ c.toNat ≤ 90 then Char.ofNat (c.toNat + 32) else c

/-- Python's `str.lower()`, over the string's character list. -/
def strToLower (s : String) : String := ⟨s.data.map lowerChar⟩

/-- Python's `str.startswith(p)`, over the string's character list. -/
def strStartsWith (s p : String) : Bool := p.data.isPrefixOf s.data

/-- Python's `str.endswith(p)`, over the string's character list. -/
def strEndsWith (s p : String) : Bool := p.data.isSuffixOf s.data

/-- A row of the `users` table (joined with `roles` for `role_name`). -/
structure UserRow where
  userId : Nat
  roleId : Nat
  fullName : String
  roleName : String
deriving Repr, DecidableEq

/-- A row of the `students` table. -/
structure StudentRow where
  studentId : Nat
  userId : Nat
  assignedCounsellorId : Option Nat
  applicationStatus : String
deriving Repr, DecidableEq

/-- A row of the `universities` table. -/
structure UniversityRow where
  universityId : Nat
  name : String
  portalUserId : Option Nat
deriving Repr, DecidableEq

/-- A row of the `applications` table.  `decision_date` and the
offer-letter columns are the ones `make_decision` writes; the offer
letter is stored base64-encoded as produced by
`encryption_service.encrypt_document`. -/
structure ApplicationRow where
  applicationId : Nat
  studentId : Nat
  universityId : Nat
  counsellorId : Option Nat
  programName : String
  status : String
  decisionType : Option String
  decisionNotes : Option String
  decisionDate : Option String
  counsellorNotes : Option String
  offerLetterBlob : Option (List Char)
  offerLetterIv : Option (List Char)
  offerLetterFilename : Option String
deriving Repr, DecidableEq

/-- A row of the `documents` table.  `verified` is the stage-1
(counsellor) outcome, `uni_verified` the stage-2 (university) outcome;
SQL `NULL` (= pending) is `none`. -/
structure DocumentRow where
  documentId : Nat
  applicationId : Option Nat
  studentId : Nat
  docType : String
  verified : Option Bool
  verificationNotes : Option String
  verifiedBy : Option Nat
  uniVerified : Option Bool
  uniVerificationNotes : Option String
  uniVerifiedBy : Option Nat
deriving Repr, DecidableEq

/-- A row of the append-only `audit_logs` table. -/
structure AuditRow where
  userId : Nat
  action : String
  targetTable : String
  targetId : Nat
  ipAddress : String
  details : String
deriving Repr, DecidableEq

/-- A row of the `notifications` table. -/
structure NotificationRow where
  userId : Nat
  title : String
  message : String
  triggeredBy : Nat
deriving Repr, DecidableEq

/-- The backing store.  `db.execute_one` is `List.find?`; inserts append
to the end of the corresponding list. -/
structure State where
  users : List UserRow
  students : List StudentRow
  universities : List UniversityRow
  applications : List ApplicationRow
  documents : List DocumentRow
  auditLogs : List AuditRow
  notifications : List NotificationRow
deriving Repr, DecidableEq

/-- A route handler's JSON reply: HTTP status, message, and (for the
gating failures) the list of document types attached to the payload. -/
inductive Response where
  | ok (code : Nat) (message : String)
  | err (code : Nat) (message : String)
  | errDocs (code : Nat) (message : String) (docTypes : List String)
deriving Repr, DecidableEq

/-- A 2xx reply. -/
def Response.isSuccess : Response → Bool
  | .ok .. => true
  | _ => false

/-- Model of `UPDATE applications SET ... WHERE application_id = %s`. -/
def State.updateApplications (s : State) (applicationId : Nat)
    (f : ApplicationRow → ApplicationRow) : State :=
  { s with applications := s.applications.map fun a =>
      if a.applicationId == applicationId then f a else a }

/-- Model of `UPDATE documents SET ... WHERE document_id = %s`. -/
def State.updateDocuments (s : State) (documentId : Nat)
    (f : DocumentRow → DocumentRow) : State :=
  { s with documents := s.documents.map fun d =>
      if d.documentId == documentId then f d else d }

/-- Model of `UPDATE students SET ... WHERE student_id = %s`. -/
def State.updateStudents (s : State) (studentId : Nat)
    (f : StudentRow → StudentRow) : State :=
  { s with students := s.students.map fun st =>
      if st.studentId == studentId then f st else st }

/-- Model of `INSERT INTO notifications ...`. -/
def State.addNotification (s : State) (n : NotificationRow) : State :=
  { s with notifications := s.notifications ++ [n] }

/-- Model of `INSERT INTO audit_logs ...`. -/
def State.addAudit (s : State) (e : AuditRow) : State :=
  { s with auditLogs := s.auditLogs ++ [e] }

/-- The fixed required-document list of `forward_application` and
`make_decision`. -/
def requiredDocs : List String :=
  ["Passport", "Transcript", "English Test", "Personal Photo"]

/-- Model of `SELECT ... FROM documents WHERE application_id = %s`. -/
def docsFor (s : State) (applicationId : Nat) : List DocumentRow :=
  s.documents.filter fun d => d.applicationId == some applicationId

/-- The row a Python dict comprehension keyed by `doc_type` keeps for a
type: the last row of that type in query order. -/
def lastOfType (docs : List DocumentRow) (t : String) : Option DocumentRow :=
  (docs.filter fun d => d.docType == t).getLast?

/-- First-occurrence deduplication (worker): `seen` holds the keys
already emitted. -/
def dedupFirstAux (seen : List String) : List String → List String
  | [] => []
  | t :: ts =>
    if t ∈ seen then dedupFirstAux seen ts
    else t :: dedupFirstAux (t :: seen) ts

/-- First-occurrence deduplication: the key order of a Python dict built
by comprehension. -/
def dedupFirst (l : List String) : List String := dedupFirstAux [] l

/-- The key set of the per-type `doc_status` dict. -/
def presentTypes (docs : List DocumentRow) : List String :=
  dedupFirst (docs.map (·.docType))

/-- Model of `missing_docs = [doc for doc in required_docs if doc not in doc_status]`. -/
def missingDocuments (docs : List DocumentRow) : List String :=
  requiredDocs.filter fun t => ¬ (docs.map (·.docType)).contains t

/-- Stage-1 value the `doc_status` dict holds for type `t` (the
`verified` column of the last row of that type). -/
def stage1Of (docs : List DocumentRow) (t : String) : Option Bool :=
  (lastOfType docs t).bind (·.verified)

/-- Stage-2 value the `doc_status` dict holds for type `t`. -/
def stage2Of (docs : List DocumentRow) (t : String) : Option Bool :=
  (lastOfType docs t).bind (·.uniVerified)

/-- Handler `forward_application`'s unverified list: dict entries whose
`verified != True`. -/
def unverifiedStage1 (docs : List DocumentRow) : List String :=
  (presentTypes docs).filter fun t => stage1Of docs t ≠ some true

/-- Handler `make_decision`'s unverified list for Accepted/Conditional: dict
entries whose `uni_verified != True`. -/
def unverifiedStage2 (docs : List DocumentRow) : List String :=
  (presentTypes docs).filter fun t => stage2Of docs t ≠ some true

/-- Handler `make_decision`'s pending list for Rejected/Missing Documents: dict
entries whose `uni_verified is None`. -/
def pendingStage2 (docs : List DocumentRow) : List String :=
  (presentTypes docs).filter fun t => stage2Of docs t = none

/-- Handler `forward_application` (`src/app.py`, `PUT
/api/applications/<id>/forward`).  `actor` is the authenticated request
context; `ip`/`now` stand for `get_client_ip` and `datetime.now()`. -/
def forward_application (s : State) (actor : UserRow) (ip now : String)
    (applicationId : Nat) : Response × State :=
  -- @role_required(1, 2, 3)
  if ¬ (actor.roleId = 1 ∨ actor.roleId = 2 ∨ actor.roleId = 3) then
    (.err 403 "Insufficient permissions", s)
  else
    match s.applications.find? (fun a => a.applicationId == applicationId) with
    | none => (.err 404 "Application not found or access denied", s)
    | some a =>
      match s.students.find? (fun st => st.studentId == a.studentId) with
      | none => (.err 404 "Application not found or access denied", s)
      | some st =>
        match s.users.find? (fun u => u.userId == st.userId) with
        | none => (.err 404 "Application not found or access denied", s)
        | some stuUser =>
          match s.universities.find? (fun uni => uni.universityId == a.universityId) with
          | none => (.err 404 "Application not found or access denied", s)
          | some uni =>
            -- counsellors only reach applications they created or are assigned to
            if actor.roleId = 3 ∧ ¬ (a.counsellorId = some actor.userId ∨
                st.assignedCounsellorId = some actor.userId) then
              (.err 404 "Application not found or access denied", s)
            else
              let isReforward := a.status = "Decision: Conditional" ∨
                a.status = "Missing Documents - In Review"
              let docs := docsFor s applicationId
              let missing := missingDocuments docs
              if missing ≠ [] then
                (.errDocs 400 "Cannot forward application. Missing required documents"
                  missing, s)
              else
                let unverified := unverifiedStage1 docs
                if unverified ≠ [] then
                  (.errDocs 400 "Cannot forward application. All documents (including \"Other\" documents) must be verified by counsellor before forwarding"
                    unverified, s)
                else
                  let actionType := if isReforward then "Re-forwarded" else "Forwarded"
                  let forwardNote := " [" ++ actionType ++ " to University by " ++
                    actor.fullName ++ " (" ++ actor.roleName ++ ") on " ++ now ++ "]"
                  let s1 := s.updateApplications applicationId fun a' =>
                    if isReforward then
                      { a' with
                        status := "Forwarded to University"
                        decisionType := none
                        decisionNotes := none
                        decisionDate := none
                        counsellorNotes := some ((a'.counsellorNotes.getD "") ++ forwardNote) }
                    else
                      { a' with
                        status := "Forwarded to University"
                        counsellorNotes := some ((a'.counsellorNotes.getD "") ++ forwardNote) }
                  let studentMessage := "Your application to " ++ uni.name ++
                    " has been " ++ strToLower actionType ++
                    " to the university for review by " ++ actor.fullName ++ "." ++
                    (if isReforward then
                      " Additional documents have been submitted for consideration."
                    else "")
                  let s2 := s1.addNotification
                    ⟨st.userId, "Application " ++ actionType, studentMessage, actor.userId⟩
                  let s3 := match uni.portalUserId with
                    | some p =>
                      s2.addNotification ⟨p, "Application " ++ actionType ++ " for Review",
                        "Application from " ++ stuUser.fullName ++ " for " ++
                          a.programName ++ " " ++ strToLower actionType ++ " by " ++
                          actor.fullName ++ " requires your review." ++
                          (if isReforward then
                            " New documents have been added since the previous conditional offer decision."
                          else ""),
                        actor.userId⟩
                    | none => s2
                  let s4 := s3.addAudit
                    ⟨actor.userId, "Forward Application to University", "applications",
                      applicationId, ip,
                      "Application ID: " ++ toString applicationId ++
                        ", Student Name: " ++ stuUser.fullName ++ ", University: " ++
                        uni.name ++ ", Forwarded by: " ++ actor.fullName ++ " (" ++
                        actor.roleName ++ ")"⟩
                  (.ok 200 "Application forwarded to university successfully", s4)

/-- The University-Staff-only precondition block of `make_decision`
(forwarded status, university binding, per-type document gating);
`some r` is the early-returned error reply. -/
def uniStaffDecisionGate (s : State) (actor : UserRow)
    (application : ApplicationRow) (applicationId : Nat)
    (decisionType : String) : Option Response :=
  if application.status ≠ "Forwarded to University" then
    some (.err 403 "Can only make decisions on applications that have been forwarded to university")
  else
    match s.universities.find? (fun uni => uni.portalUserId == some actor.userId) with
    | none => some (.err 404 "University not found for this user")
    | some university =>
      if application.universityId ≠ university.universityId then
        some (.err 403 "Access denied. This application is not for your university")
      else
        let docs := docsFor s applicationId
        let missing := missingDocuments docs
        if missing ≠ [] then
          some (.errDocs 400 "Cannot make decision. Missing required documents" missing)
        else if (decisionType = "Accepted" ∨ decisionType = "Conditional") ∧
            unverifiedStage2 docs ≠ [] then
          some (.errDocs 400 "Cannot approve application. All documents (including \"Other\" documents) must be verified by university staff before accepting"
            (unverifiedStage2 docs))
        else if (decisionType = "Rejected" ∨ decisionType = "Missing Documents") ∧
            pendingStage2 docs ≠ [] then
          some (.errDocs 400 "Please review all documents (including \"Other\" documents) before making a decision. Some documents are still pending verification"
            (pendingStage2 docs))
        else none

/-- Handler `make_decision` (`src/app.py`, `PUT
/api/applications/<id>/decision`).  `offerLetterFile` is the uploaded
multipart file as `(filename, bytes)`; `E`/`iv` feed
`encryption_service.encrypt_document`.  `ledgerOk = false` injects a
storage failure into the final `INSERT INTO audit_logs` (every earlier
`execute_query` has already committed on its own, see
`Database.execute_query`); the raised exception surfaces as the
handler's 500 reply. -/
def make_decision (s : State) (actor : UserRow) (ip now : String)
    (applicationId : Nat) (decisionType decisionNotes : String)
    (offerLetterFile : Option (String × List Vault.Byte))
    (E : List Vault.Byte → List Vault.Byte) (iv : List Vault.Byte)
    (ledgerOk : Bool) : Response × State :=
  -- @role_required(1, 2, 4)
  if ¬ (actor.roleId = 1 ∨ actor.roleId = 2 ∨ actor.roleId = 4) then
    (.err 403 "Insufficient permissions", s)
  else if ¬ (decisionType = "Accepted" ∨ decisionType = "Rejected" ∨
      decisionType = "Conditional" ∨ decisionType = "Missing Documents") then
    (.err 400 "Invalid decision type", s)
  else if (decisionType = "Accepted" ∨ decisionType = "Conditional") ∧
      offerLetterFile = none then
    (.err 400 ("Offer letter PDF is required for " ++
      (if decisionType = "Accepted" then "acceptance" else "conditional offer") ++
      " decisions"), s)
  else if (decisionType = "Accepted" ∨ decisionType = "Conditional") ∧
      offerLetterFile.any (fun fc => ! strEndsWith (strToLower fc.1) ".pdf") = true then
    (.err 400 "Offer letter must be a PDF file", s)
  else
    match s.applications.find? (fun a => a.applicationId == applicationId) with
    | none => (.err 404 "Application not found", s)
    | some application =>
      match (if actor.roleId = 4 then
          uniStaffDecisionGate s actor application applicationId decisionType
        else none) with
      | some r => (r, s)
      | none =>
        let newStatus := if decisionType = "Missing Documents" then
            "Missing Documents - In Review"
          else "Decision: " ++ decisionType
        let s1 := s.updateApplications applicationId fun a' =>
          match offerLetterFile with
          | some (fn, bytes) =>
            let enc := Vault.encrypt_document E iv bytes
            { a' with
              status := newStatus
              decisionType := some decisionType
              decisionNotes := some decisionNotes
              decisionDate := some now
              offerLetterBlob := some enc.1
              offerLetterIv := some enc.2
              offerLetterFilename := some fn }
          | none =>
            { a' with
              status := newStatus
              decisionType := some decisionType
              decisionNotes := some decisionNotes
              decisionDate := some now }
        let appInfo :=
          (s.students.find? (fun st => st.studentId == application.studentId)).bind
            fun st => (s.users.find? (fun u => u.userId == st.userId)).bind
            fun u => (s.universities.find?
                (fun uni => uni.universityId == application.universityId)).map
            fun uni => (st, u, uni)
        let notifs : List NotificationRow := match appInfo with
          | some (st, _, uni) =>
            ⟨st.userId, "Application " ++ decisionType,
              "Your application to " ++ uni.name ++ " has been " ++
                strToLower decisionType ++ "." ++
                (if decisionNotes ≠ "" then
                  "\n\nNotes from university: " ++ decisionNotes
                else ""),
              actor.userId⟩ ::
            (match st.assignedCounsellorId with
              | some cid =>
                [⟨cid, "Application Decision - " ++ decisionType,
                  "Application decision for student " ++
                    ((s.users.find? (fun u => u.userId == st.userId)).map
                      (·.fullName)).getD "" ++ " to " ++ uni.name ++ ": " ++
                    decisionType ++ "." ++
                    (if decisionNotes ≠ "" then
                      "\n\nUniversity notes: " ++ decisionNotes
                    else ""),
                  actor.userId⟩]
              | none => [])
          | none => []
        let s2 := { s1 with notifications := s1.notifications ++ notifs }
        let auditDetails := "Application ID: " ++ toString applicationId ++
          ", Decision: " ++ decisionType ++ ", Student Name: " ++
          (match appInfo with | some (_, u, _) => u.fullName | none => "N/A") ++
          ", University: " ++
          (match appInfo with | some (_, _, uni) => uni.name | none => "N/A")
        if ledgerOk then
          (.ok 200 "Decision recorded successfully",
            s2.addAudit ⟨actor.userId, "Decision: " ++ decisionType, "applications",
              applicationId, ip, auditDetails⟩)
        else
          (.err 500 "Failed to record decision", s2)

/-- The University-Staff-only precondition block of `verify_document`
(university binding, application forwarded or decided, stage 1 already
approved); `some r` is the early-returned error reply. -/
def uniVerifyGate (s : State) (actor : UserRow) (document : DocumentRow) :
    Option Response :=
  match s.universities.find? (fun uni => uni.portalUserId == some actor.userId) with
  | none => some (.err 404 "University not found for this user")
  | some university =>
    match document.applicationId with
    | some appId =>
      match s.applications.find? (fun a => a.applicationId == appId) with
      | none => some (.err 403 "Access denied. This document is not for your university.")
      | some app =>
        if app.universityId ≠ university.universityId then
          some (.err 403 "Access denied. This document is not for your university.")
        else if app.status ≠ "Forwarded to University" ∧
            ¬ strStartsWith app.status "Decision:" then
          some (.err 403 "Cannot verify document. Application has not been forwarded yet.")
        else if document.verified ≠ some true then
          some (.err 403 "Cannot verify document. Document must be verified by counsellor first (Stage 1).")
        else none
    | none =>
      some (.err 403 "Cannot verify document that is not associated with an application.")

/-- Handler `verify_document` (`src/app.py`, `PUT /api/documents/<id>/verify`).
Roles 1–3 write the stage-1 (`verified`) columns, role 4 the stage-2
(`uni_verified`) columns. -/
def verify_document (s : State) (actor : UserRow) (ip : String)
    (documentId : Nat) (action : String) (notes : Option String) :
    Response × State :=
  -- @role_required(1, 2, 3, 4)
  if ¬ (actor.roleId = 1 ∨ actor.roleId = 2 ∨ actor.roleId = 3 ∨
      actor.roleId = 4) then
    (.err 403 "Insufficient permissions", s)
  else
    match s.documents.find? (fun d => d.documentId == documentId) with
    | none => (.err 404 "Document not found", s)
    | some document =>
      match s.students.find? (fun st => st.studentId == document.studentId) with
      | none => (.err 404 "Document not found", s)
      | some st =>
        if actor.roleId = 3 ∧ st.assignedCounsellorId ≠ some actor.userId then
          (.err 403 "Access denied. This document belongs to a student not assigned to you.", s)
        else
          match (if actor.roleId = 4 then uniVerifyGate s actor document
            else none) with
          | some r => (r, s)
          | none =>
            let verified := action = "approve"
            let isStage1 := actor.roleId = 1 ∨ actor.roleId = 2 ∨ actor.roleId = 3
            let stage := if isStage1 then "Stage 1 (Counsellor)"
              else "Stage 2 (University)"
            let s1 := if isStage1 then
                s.updateDocuments documentId fun d =>
                  { d with
                    verified := some verified
                    verificationNotes := notes
                    verifiedBy := some actor.userId }
              else
                s.updateDocuments documentId fun d =>
                  { d with
                    uniVerified := some verified
                    uniVerificationNotes := notes
                    uniVerifiedBy := some actor.userId }
            let docInfo := (s.users.find? (fun u => u.userId == st.userId)).map
              fun u => (document.docType, u.fullName)
            let s2 := s1.addAudit
              ⟨actor.userId,
                (if verified then "Approve" else "Reject") ++ " Document (" ++
                  stage ++ ")",
                "documents", documentId, ip,
                "Document ID: " ++ toString documentId ++ ", Action: " ++
                  (if verified then "Approve" else "Reject") ++ " (" ++ stage ++
                  "), Document Type: " ++
                  (match docInfo with | some (t, _) => t | none => "N/A") ++
                  ", Student Name: " ++
                  (match docInfo with | some (_, n) => n | none => "N/A")⟩
            let statusText := if verified then "approved" else "rejected"
            let s3 := s2.addNotification
              ⟨st.userId,
                "Document " ++ (if verified then "Approved" else "Rejected") ++
                  " (" ++ stage ++ ")",
                "Your document has been " ++ statusText ++ " by " ++ stage ++
                  ". Notes: " ++ notes.getD "",
                actor.userId⟩
            (.ok 200 "Document verification updated", s3)

/-- Handler `update_application_status` (`src/app.py`, `PUT
/api/applications/<id>/status`).  Note the handler runs its `UPDATE`
without checking that the application exists. -/
def update_application_status (s : State) (actor : UserRow) (ip : String)
    (applicationId : Nat) (status : Option String) (notes : String) :
    Response × State :=
  -- @role_required(1, 2, 3)
  if ¬ (actor.roleId = 1 ∨ actor.roleId = 2 ∨ actor.roleId = 3) then
    (.err 403 "Insufficient permissions", s)
  else if status = none ∨ status = some "" then
    (.err 400 "Status is required", s)
  else
    let st := status.getD ""
    let s1 := s.updateApplications applicationId fun a =>
      { a with status := st, counsellorNotes := some notes }
    let appInfo :=
      (s.applications.find? (fun a => a.applicationId == applicationId)).bind
        fun a => (s.students.find? (fun stu => stu.studentId == a.studentId)).bind
        fun stu => (s.users.find? (fun u => u.userId == stu.userId)).bind
        fun u => (s.universities.find?
            (fun uni => uni.universityId == a.universityId)).map
        fun uni => (stu, u, uni)
    let notifs : List NotificationRow := match appInfo with
      | some (stu, _, _) =>
        [⟨stu.userId, "Application Status Updated",
          "Your application status changed to: " ++ st ++ ". Notes: " ++ notes,
          actor.userId⟩]
      | none => []
    let s2 := { s1 with notifications := s1.notifications ++ notifs }
    let s3 := s2.addAudit
      ⟨actor.userId, "Update Application Status: " ++ st, "applications",
        applicationId, ip,
        "Application ID: " ++ toString applicationId ++ ", New Status: " ++ st ++
          ", Student Name: " ++
          (match appInfo with | some (_, u, _) => u.fullName | none => "N/A") ++
          ", University: " ++
          (match appInfo with | some (_, _, uni) => uni.name | none => "N/A")⟩
    (.ok 200 "Application status updated", s3)

/-- Handler helper `unassign_counsellor` (`src/app.py`), reached from the
assign-counsellor route when `counsellor_id` is null. -/
def unassign_counsellor (s : State) (actor : UserRow) (ip now : String)
    (studentId : Nat) : Response × State :=
  match s.students.find? (fun st => st.studentId == studentId) with
  | none => (.err 404 "Student not found", s)
  | some studentInfo =>
    match s.users.find? (fun u => u.userId == studentInfo.userId) with
    | none => (.err 404 "Student not found", s)
    | some studentUser =>
      let prevName : Option String := match studentInfo.assignedCounsellorId with
        | some pid => (s.users.find? (fun u => u.userId == pid)).map (·.fullName)
        | none => none
      let s1 := s.updateStudents studentId fun st =>
        { st with
          assignedCounsellorId := none
          applicationStatus := "Incomplete Profile" }
      let s2 := s1.addAudit
        ⟨actor.userId, "Unassign Counsellor", "students", studentId, ip,
          "Student ID: " ++ toString studentId ++ ", Student Name: " ++
            studentUser.fullName ++ ", Unassigned by: " ++ actor.fullName ++
            " (" ++ actor.roleName ++ "), Date: " ++ now ++
            (match studentInfo.assignedCounsellorId with
              | some pid => ", Previous Counsellor ID: " ++ toString pid ++
                  ", Previous Counsellor Name: " ++ prevName.getD "None"
              | none => "")⟩
      let s3 := if studentInfo.userId ≠ 0 then
          s2.addNotification
            ⟨studentInfo.userId, "Counsellor Unassigned",
              "Your counsellor has been unassigned by " ++ actor.fullName ++ ".",
              actor.userId⟩
        else s2
      (.ok 200 "Counsellor unassigned successfully", s3)

/-- Handler `reassign_counsellor` (`src/app.py`, `PUT
/api/students/<id>/assign-counsellor`). -/
def reassign_counsellor (s : State) (actor : UserRow) (ip now : String)
    (studentId : Nat) (counsellorId : Option Nat) : Response × State :=
  -- @role_required(1, 2)
  if ¬ (actor.roleId = 1 ∨ actor.roleId = 2) then
    (.err 403 "Insufficient permissions", s)
  else
    match counsellorId with
    | none => unassign_counsellor s actor ip now studentId
    | some cid =>
      match s.users.find? (fun u => u.userId == cid && u.roleId == 3) with
      | none => (.err 400 "Invalid counsellor", s)
      | some counsellor =>
        match s.students.find? (fun st => st.studentId == studentId) with
        | none => (.err 404 "Student not found", s)
        | some studentInfo =>
          match s.users.find? (fun u => u.userId == studentInfo.userId) with
          | none => (.err 404 "Student not found", s)
          | some studentUser =>
            let prevName : Option String :=
              match studentInfo.assignedCounsellorId with
              | some pid => (s.users.find? (fun u => u.userId == pid)).map (·.fullName)
              | none => none
            let s1 := s.updateStudents studentId fun st =>
              { st with
                assignedCounsellorId := some cid
                applicationStatus := "Assigned to Counsellor" }
            let actionType := if studentInfo.assignedCounsellorId ≠ none then
                "Reassign Counsellor"
              else "Assign Counsellor"
            let s2 := s1.addAudit
              ⟨actor.userId, actionType, "students", studentId, ip,
                "Student ID: " ++ toString studentId ++ ", Student Name: " ++
                  studentUser.fullName ++ ", Counsellor ID: " ++ toString cid ++
                  ", Counsellor Name: " ++ counsellor.fullName ++
                  ", Assigned by: " ++ actor.fullName ++ " (" ++ actor.roleName ++
                  "), Date: " ++ now ++
                  (match studentInfo.assignedCounsellorId with
                    | some pid => ", Previous Counsellor ID: " ++ toString pid ++
                        ", Previous Counsellor Name: " ++ prevName.getD "None"
                    | none => "")⟩
            let s3 := if studentInfo.userId ≠ 0 then
                s2.addNotification
                  ⟨studentInfo.userId, "Counsellor Assigned",
                    "Counsellor " ++ counsellor.fullName ++
                      " has been assigned to your application by " ++
                      actor.fullName ++ ".",
                    actor.userId⟩
              else s2
            let s4 := s3.addNotification
              ⟨cid, "New Student Assignment",
                "You have been assigned to student " ++ studentUser.fullName ++
                  " by " ++ actor.fullName ++ ".",
                actor.userId⟩
            (.ok 200 "Counsellor assigned successfully", s4)

/-!
Concrete fixture rows, used to instantiate the theorems below on closed
inputs: one admin, one bound university-staff member, two counsellors, a
student with an application to the university, and document sets in the
various verification states.
-/

/-- Fixture: an Admin (role 2). -/
def exAdmin : UserRow := ⟨10, 2, "Alice Admin", "Admin"⟩

/-- Fixture: the staff member bound to the fixture university. -/
def exUniStaff : UserRow := ⟨20, 4, "Uma Staff", "UniversityStaff"⟩

/-- Fixture: the student's assigned counsellor. -/
def exCoun1 : UserRow := ⟨40, 3, "Carl One", "Counsellor"⟩

/-- Fixture: a second counsellor. -/
def exCoun2 : UserRow := ⟨41, 3, "Cara Two", "Counsellor"⟩

/-- Fixture: the student's user row. -/
def exStudentUser : UserRow := ⟨30, 6, "Sam Student", "Student"⟩

/-- Fixture: the student, assigned to counsellor 40. -/
def exStudent : StudentRow := ⟨1, 30, some 40, "Assigned to Counsellor"⟩

/-- Fixture: the university, with portal user 20. -/
def exUniversity : UniversityRow := ⟨7, "Test University", some 20⟩

/-- Fixture: application 5 of the student at the university, in the
given status, with decision fields populated when `dt` is given. -/
def exApp (status : String) (dt : Option String) : ApplicationRow :=
  ⟨5, 1, 7, some 40, "CS", status, dt, dt.map (fun _ => "prior notes"),
    dt.map (fun _ => "2024-01-01"), none, none, none, none⟩

/-- Fixture: a document of application 5. -/
def exDoc (i : Nat) (t : String) (v uv : Option Bool) : DocumentRow :=
  ⟨i, some 5, 1, t, v, none, none, uv, none, none⟩

/-- Fixture: all four required documents, approved at both stages. -/
def exDocsOk : List DocumentRow :=
  [exDoc 1 "Passport" (some true) (some true),
   exDoc 2 "Transcript" (some true) (some true),
   exDoc 3 "English Test" (some true) (some true),
   exDoc 4 "Personal Photo" (some true) (some true)]

/-- Fixture: `exDocsOk` plus an earlier Passport upload that was
rejected at both stages (two rows share the `doc_type`). -/
def exDocsDup : List DocumentRow :=
  exDoc 0 "Passport" (some false) (some false) :: exDocsOk

/-- Fixture: a store holding the fixture users, student, university,
one application and the given documents. -/
def exState (a : ApplicationRow) (docs : List DocumentRow) : State :=
  ⟨[exAdmin, exUniStaff, exCoun1, exCoun2, exStudentUser], [exStudent],
    [exUniversity], [a], docs, [], []⟩

/-- Fixture: a 20-byte payload (spans two cipher blocks). -/
def exPayload : List Vault.Byte := (List.range 20).map fun n => Vault.mkByte (n * 13)

/-- The data-model invariant of §3 of the specification: the decision
record is populated only when the status is a `Decision:` status or the
missing-documents re-review state. -/
def decisionClean (a : ApplicationRow) : Bool :=
  strStartsWith a.status "Decision:" || a.status == "Missing Documents - In Review" ||
  (a.decisionType == none && a.decisionNotes == none && a.decisionDate == none)

end CRM
namespace Vault

/-- Looking a generated base64 character back up in the alphabet returns
the 6-bit value it encodes. -/
theorem decChar_encChar (s : Nat) : decChar (encChar s) = some (s % 64) := by
  have h : ∀ t : Fin 64, decChar (b64chars.getD t.val 'A') = some t.val := by decide
  simpa [encChar] using h ⟨s % 64, Nat.mod_lt _ (by norm_num)⟩

/-- No alphabet character is the padding character. -/
theorem encChar_ne_pad (s : Nat) : encChar s ≠ '=' := by
  have h : ∀ t : Fin 64, b64chars.getD t.val 'A' ≠ '=' := by decide
  simpa [encChar] using h ⟨s % 64, Nat.mod_lt _ (by norm_num)⟩

/-- base64 decoding inverts base64 encoding. -/
theorem b64decode_b64encode : ∀ l : List Byte, b64decode (b64encode l) = some l
  | [] => by simp [b64encode, b64decode]
  | [b0] => by
    have hb0 := b0.isLt
    simp only [b64encode, b64decode, decChar_encChar, if_pos, Option.bind_eq_bind,
      Option.some_bind, and_self, if_true]
    have : mkByte (b0.val * 65536 / 262144 % 64 * 4 +
        b0.val * 65536 / 4096 % 64 / 16) = b0 := by
      apply Fin.ext
      simp only [mkByte]
      omega
    simp [this]
  | [b0, b1] => by
    have hb0 := b0.isLt
    have hb1 := b1.isLt
    simp only [b64encode, b64decode]
    rw [if_neg (encChar_ne_pad _)]
    simp only [decChar_encChar, Option.bind_eq_bind, Option.some_bind, if_pos rfl,
      if_pos (rfl : ([] : List Char) = [])]
    have h0 : mkByte ((b0.val * 65536 + b1.val * 256) / 262144 % 64 * 4 +
        (b0.val * 65536 + b1.val * 256) / 4096 % 64 / 16) = b0 := by
      apply Fin.ext; simp only [mkByte]; omega
    have h1 : mkByte ((b0.val * 65536 + b1.val * 256) / 4096 % 64 % 16 * 16 +
        (b0.val * 65536 + b1.val * 256) / 64 % 64 / 4) = b1 := by
      apply Fin.ext; simp only [mkByte]; omega
    simp [h0, h1]
  | b0 :: b1 :: b2 :: rest => by
    have hb0 := b0.isLt
    have hb1 := b1.isLt
    have hb2 := b2.isLt
    simp only [b64encode, b64decode]
    rw [if_neg (encChar_ne_pad _), if_neg (encChar_ne_pad _)]
    rw [b64decode_b64encode rest]
    simp only [decChar_encChar, Option.bind_eq_bind, Option.some_bind]
    have hg :
        let g := b0.val * 65536 + b1.val * 256 + b2.val
        let g' := g / 262144 % 64 * 262144 + g / 4096 % 64 * 4096 +
          g / 64 % 64 * 64 + g % 64
        mkByte (g' / 65536) = b0 ∧ mkByte (g' / 256) = b1 ∧ mkByte g' = b2 := by
      refine ⟨Fin.ext ?_, Fin.ext ?_, Fin.ext ?_⟩ <;> simp only [mkByte] <;> omega
    obtain ⟨h0, h1, h2⟩ := hg
    simp [h0, h1, h2]

/-- Unpadding a payload extended by `n` copies of the byte `n` recovers
the payload. -/
theorem unpad16_append_replicate (data : List Byte) (n : Nat) (c : Byte)
    (hn1 : 1 ≤ n) (hn16 : n ≤ 16) (hc : c.val = n)
    (hmod : (data.length + n) % 16 = 0) :
    unpad16 (data ++ List.replicate n c) = some data := by
  have hrep : List.replicate n c ≠ [] := by
    intro h
    have := congrArg List.length h
    simp at this
    omega
  unfold unpad16
  simp only [List.length_append, List.length_replicate]
  rw [if_neg (by omega)]
  rw [List.getLast?_append_of_ne_nil _ hrep]
  rw [List.getLast?_replicate, if_neg (by omega)]
  dsimp only
  rw [hc]
  rw [if_neg (by omega)]
  have hsub : data.length + n - n = data.length := by omega
  rw [hsub, List.drop_left, List.take_left]
  have hall : ((List.replicate n c).all fun b => decide (b.val = n)) = true := by
    simp only [List.all_eq_true, List.mem_replicate]
    rintro b ⟨-, rfl⟩
    simp [hc]
  rw [if_pos hall]

/-- PKCS#7 unpadding inverts PKCS#7 padding, for every payload. -/
theorem unpad16_pad16 (data : List Byte) : unpad16 (pad16 data) = some data := by
  have hmod : data.length % 16 < 16 := Nat.mod_lt _ (by norm_num)
  unfold pad16
  exact unpad16_append_replicate data _ _ (by unfold padLen; omega)
    (by unfold padLen; omega) rfl (by unfold padLen; omega)

/-- Padded payloads have block-aligned length. -/
theorem pad16_length_mod (data : List Byte) : (pad16 data).length % 16 = 0 := by
  have hmod : data.length % 16 < 16 := Nat.mod_lt _ (by norm_num)
  simp only [pad16, padLen, List.length_append, List.length_replicate]
  omega

/-- Flattening the 16-byte chunks of a byte string gives it back. -/
theorem chunk16_flatten (l : List Byte) : (chunk16 l).flatten = l := by
  by_cases h : l = []
  · subst h; rw [chunk16]; simp
  · rw [chunk16, if_neg h]
    rw [List.flatten_cons, chunk16_flatten (l.drop 16)]
    exact List.take_append_drop 16 l
termination_by l.length
decreasing_by
  simp only [List.length_drop]
  have : l.length ≠ 0 := fun hc => h (List.eq_nil_of_length_eq_zero hc)
  omega

/-- Every chunk of a block-aligned byte string has length 16. -/
theorem chunk16_mem_length (l : List Byte) (hl : l.length % 16 = 0) :
    ∀ b ∈ chunk16 l, b.length = 16 := by
  by_cases h : l = []
  · subst h; rw [chunk16]; simp
  · rw [chunk16, if_neg h]
    intro b hb
    have hlen : l.length ≠ 0 := fun hc => h (List.eq_nil_of_length_eq_zero hc)
    rcases List.mem_cons.mp hb with rfl | hb'
    · simp only [List.length_take]
      omega
    · exact chunk16_mem_length (l.drop 16)
        (by simp only [List.length_drop]; omega) b hb'
termination_by l.length
decreasing_by
  simp only [List.length_drop]
  have : l.length ≠ 0 := fun hc => h (List.eq_nil_of_length_eq_zero hc)
  omega

/-- Chunking the flattening of a list of 16-byte blocks gives the blocks
back. -/
theorem chunk16_of_flatten (B : List (List Byte))
    (hB : ∀ b ∈ B, b.length = 16) : chunk16 B.flatten = B := by
  induction B with
  | nil => rw [List.flatten_nil, chunk16]; simp
  | cons b bs ih =>
    have hb : b.length = 16 := hB b (by simp)
    rw [List.flatten_cons, chunk16, if_neg]
    · have htake : (b ++ bs.flatten).take 16 = b := by
        conv_lhs => rw [← hb]
        exact List.take_left b bs.flatten
      have hdrop : (b ++ bs.flatten).drop 16 = bs.flatten := by
        conv_lhs => rw [← hb]
        exact List.drop_left b bs.flatten
      rw [htake, hdrop, ih (fun x hx => hB x (by simp [hx]))]
    · intro hc
      have := congrArg List.length hc
      simp [hb] at this

/-- Bytewise XOR is self-cancelling. -/
theorem bxor_bxor (a b : Byte) : bxor (bxor a b) b = a := by
  apply Fin.ext
  exact Nat.xor_cancel_right _ _

/-- Block XOR with a fixed block is self-cancelling on equal lengths. -/
theorem blockXor_cancel (p c : List Byte) (h : p.length = c.length) :
    blockXor (blockXor p c) c = p := by
  induction p generalizing c with
  | nil => simp [blockXor]
  | cons x xs ih =>
    cases c with
    | nil => simp at h
    | cons y ys =>
      simp only [blockXor, List.zipWith_cons_cons] at *
      rw [bxor_bxor]
      rw [ih ys (by simpa using h)]

/-- Length of a block XOR. -/
theorem blockXor_length (a b : List Byte) :
    (blockXor a b).length = min a.length b.length := by
  simp [blockXor]

/-- CBC ciphertext blocks all have the cipher's block length. -/
theorem cbcEncryptBlocks_length (E : List Byte → List Byte)
    (hE : ∀ b, b.length = 16 → (E b).length = 16) :
    ∀ (ps : List (List Byte)) (prev : List Byte), prev.length = 16 →
      (∀ p ∈ ps, p.length = 16) →
      ∀ c ∈ cbcEncryptBlocks E prev ps, c.length = 16 := by
  intro ps
  induction ps with
  | nil => intro prev _ _ c hc; simp [cbcEncryptBlocks] at hc
  | cons p ps ih =>
    intro prev hprev hps c hc
    have hp : p.length = 16 := hps p (by simp)
    have hx : (blockXor p prev).length = 16 := by
      rw [blockXor_length, hp, hprev]; simp
    simp only [cbcEncryptBlocks] at hc
    rcases List.mem_cons.mp hc with rfl | hc'
    · exact hE _ hx
    · exact ih (E (blockXor p prev)) (hE _ hx)
        (fun x hx' => hps x (by simp [hx'])) c hc'

/-- CBC decryption with the inverse block permutation recovers the
plaintext blocks. -/
theorem cbcDecrypt_cbcEncrypt (E D : List Byte → List Byte)
    (hE : ∀ b, b.length = 16 → (E b).length = 16)
    (hD : ∀ b, b.length = 16 → D (E b) = b) :
    ∀ (ps : List (List Byte)) (prev : List Byte), prev.length = 16 →
      (∀ p ∈ ps, p.length = 16) →
      cbcDecryptBlocks D prev (cbcEncryptBlocks E prev ps) = ps := by
  intro ps
  induction ps with
  | nil => intro prev _ _; simp [cbcEncryptBlocks, cbcDecryptBlocks]
  | cons p ps ih =>
    intro prev hprev hps
    have hp : p.length = 16 := hps p (by simp)
    have hx : (blockXor p prev).length = 16 := by
      rw [blockXor_length, hp, hprev]; simp
    simp only [cbcEncryptBlocks, cbcDecryptBlocks]
    rw [hD _ hx, blockXor_cancel p prev (by rw [hp, hprev])]
    rw [ih (E (blockXor p prev)) (hE _ hx) (fun x hx' => hps x (by simp [hx']))]

/-- Vault round trip: decrypting the encryption of any byte payload
(under the per-call IV that `encrypt_document` drew) returns the
payload.  `E` is the AES-256 permutation supplied by the external crypto
library and `D` its inverse; the hypotheses are that library's contract
on 16-byte blocks. -/
theorem decrypt_document_encrypt_document (E D : List Byte → List Byte)
    (hE : ∀ b, b.length = 16 → (E b).length = 16)
    (hD : ∀ b, b.length = 16 → D (E b) = b)
    (iv : List Byte) (hiv : iv.length = 16) (data : List Byte) :
    decrypt_document D (encrypt_document E iv data).1
      (encrypt_document E iv data).2 = some data := by
  have hP : ∀ p ∈ chunk16 (pad16 data), p.length = 16 :=
    chunk16_mem_length _ (pad16_length_mod data)
  have hC : ∀ c ∈ cbcEncryptBlocks E iv (chunk16 (pad16 data)), c.length = 16 :=
    cbcEncryptBlocks_length E hE _ iv hiv hP
  simp only [encrypt_document, decrypt_document]
  rw [b64decode_b64encode, b64decode_b64encode]
  simp only [Option.bind_eq_bind, Option.some_bind]
  rw [chunk16_of_flatten _ hC]
  rw [cbcDecrypt_cbcEncrypt E D hE hD _ iv hiv hP]
  rw [chunk16_flatten]
  exact unpad16_pad16 data

end Vault

namespace CRM

/-- An `UPDATE ... WHERE` whose condition matches no row leaves the table
unchanged. -/
theorem map_ite_eq_self {α : Type} (c : α → Bool) (f : α → α) (l : List α)
    (h : ∀ a ∈ l, c a = false) :
    (l.map fun a => if c a then f a else a) = l := by
  induction l with
  | nil => rfl
  | cons x xs ih =>
    simp only [List.map_cons, h x (by simp), if_false, List.cons.injEq]
    exact ⟨rfl, ih fun a ha => h a (by simp [ha])⟩

/-- Looking up the updated row after an `UPDATE ... WHERE` keyed by the
same condition: the found row is the update applied to the row found
before, provided the update keeps the condition true. -/
theorem find?_map_ite {α : Type} (c : α → Bool) (f : α → α)
    (hf : ∀ a, c a = true → c (f a) = true) (l : List α) :
    (l.map fun a => if c a then f a else a).find? c = (l.find? c).map f := by
  induction l with
  | nil => rfl
  | cons x xs ih =>
    cases hx : c x with
    | true =>
      simp [List.find?_cons_of_pos _ hx, List.find?_cons_of_pos _ (hf x hx), hx]
    | false =>
      have h1 : (if c x = true then f x else x) = x := by simp [hx]
      simp only [List.map_cons, h1]
      rw [List.find?_cons_of_neg _ (by simp [hx]),
        List.find?_cons_of_neg _ (by simp [hx])]
      exact ih

/-- An update that does not touch the fields a projection reads leaves
the projected table unchanged. -/
theorem map_proj_map_ite {α β : Type} (c : α → Bool) (f : α → α) (proj : α → β)
    (hf : ∀ a, proj (f a) = proj a) (l : List α) :
    ((l.map fun a => if c a then f a else a).map proj) = l.map proj := by
  rw [List.map_map]
  apply List.map_congr_left
  intro a _
  by_cases h : c a = true <;> simp [h, hf]

/-- C10.  `update_application_status` on an application id that matches
no row does not fail with a 404: it replies 200, leaves every table
unchanged, appends exactly one audit entry naming the nonexistent
target (with `N/A` placeholders), and sends no notification. -/
theorem update_application_status_nonexistent (s : State) (actor : UserRow)
    (ip : String) (applicationId : Nat) (st notes : String)
    (hrole : actor.roleId = 1 ∨ actor.roleId = 2 ∨ actor.roleId = 3)
    (hst : st ≠ "")
    (hmissing : ∀ a ∈ s.applications, a.applicationId ≠ applicationId) :
    (update_application_status s actor ip applicationId (some st) notes).1
        = .ok 200 "Application status updated" ∧
    (update_application_status s actor ip applicationId (some st) notes).2
        = { s with auditLogs := s.auditLogs ++
            [⟨actor.userId, "Update Application Status: " ++ st, "applications",
              applicationId, ip,
              "Application ID: " ++ toString applicationId ++ ", New Status: " ++
                st ++ ", Student Name: " ++ "N/A" ++ ", University: " ++ "N/A"⟩] } := by
  have happ : s.applications.find? (fun a => a.applicationId == applicationId)
      = none := by
    rw [List.find?_eq_none]
    intro a ha
    simpa using hmissing a ha
  have hupd : (s.applications.map fun a =>
      if a.applicationId == applicationId then
        { a with status := st, counsellorNotes := some notes } else a)
      = s.applications := by
    apply map_ite_eq_self
    intro a ha
    simpa using hmissing a ha
  unfold update_application_status
  rw [if_neg (not_not_intro hrole)]
  rw [if_neg (by simp [hst])]
  simp only [State.updateApplications, Option.getD_some, happ,
    Option.bind_eq_bind, Option.none_bind, hupd, State.addAudit,
    List.append_nil]
  exact ⟨trivial, trivial⟩

/-- Closed instance of C10: updating the status of the missing
application 999 on the fixture store. -/
theorem update_application_status_nonexistent_witness :
    (update_application_status (exState (exApp "In Review" none) exDocsOk)
        exAdmin "ip" 999 (some "On Hold") "n").1
      = .ok 200 "Application status updated" ∧
    (update_application_status (exState (exApp "In Review" none) exDocsOk)
        exAdmin "ip" 999 (some "On Hold") "n").2
      = { exState (exApp "In Review" none) exDocsOk with
          auditLogs := [⟨10, "Update Application Status: " ++ "On Hold",
            "applications", 999, "ip",
            "Application ID: " ++ toString 999 ++ ", New Status: " ++ "On Hold" ++
              ", Student Name: " ++ "N/A" ++ ", University: " ++ "N/A"⟩] } :=
  update_application_status_nonexistent (exState (exApp "In Review" none) exDocsOk)
    exAdmin "ip" 999 "On Hold" "n" (by decide) (by decide) (by decide)

/-- C6.  A decide call for Accepted/Conditional with no offer-letter
file, or with a file whose (lower-cased) name does not end in `.pdf`,
is rejected with a 400 validation error before any read or write: the
returned store is exactly the input store, so status, decision fields
and the stored offer letter are all unchanged. -/
theorem make_decision_offer_letter_validation (s : State) (actor : UserRow)
    (ip now : String) (applicationId : Nat) (decisionType decisionNotes : String)
    (offerLetterFile : Option (String × List Vault.Byte))
    (E : List Vault.Byte → List Vault.Byte) (iv : List Vault.Byte)
    (ledgerOk : Bool)
    (hrole : actor.roleId = 1 ∨ actor.roleId = 2 ∨ actor.roleId = 4)
    (hdt : decisionType = "Accepted" ∨ decisionType = "Conditional")
    (hbad : offerLetterFile = none ∨
      ∃ fn bytes, offerLetterFile = some (fn, bytes) ∧
        strEndsWith (strToLower fn) ".pdf" = false) :
    ((make_decision s actor ip now applicationId decisionType decisionNotes
        offerLetterFile E iv ledgerOk).1
        = .err 400 ("Offer letter PDF is required for " ++
          (if decisionType = "Accepted" then "acceptance" else "conditional offer")
          ++ " decisions") ∨
     (make_decision s actor ip now applicationId decisionType decisionNotes
        offerLetterFile E iv ledgerOk).1
        = .err 400 "Offer letter must be a PDF file") ∧
    (make_decision s actor ip now applicationId decisionType decisionNotes
        offerLetterFile E iv ledgerOk).2 = s := by
  have hvalid : decisionType = "Accepted" ∨ decisionType = "Rejected" ∨
      decisionType = "Conditional" ∨ decisionType = "Missing Documents" := by
    rcases hdt with h | h <;> simp [h]
  unfold make_decision
  rw [if_neg (not_not_intro hrole), if_neg (not_not_intro hvalid)]
  rcases hbad with hnone | ⟨fn, bytes, hsome, hpdf⟩
  · rw [if_pos ⟨hdt, hnone⟩]
    exact ⟨Or.inl rfl, rfl⟩
  · rw [if_neg (by simp [hsome])]
    rw [if_pos ⟨hdt, by simp [hsome, Option.any, hpdf]⟩]
    exact ⟨Or.inr rfl, rfl⟩

/-- Closed instance of C6: decide(Accepted) with no file on the fixture
store is a 400 with no state change. -/
theorem make_decision_offer_letter_validation_witness :
    ((make_decision (exState (exApp "Forwarded to University" none) exDocsOk)
        exUniStaff "ip" "now" 5 "Accepted" "" none id [] true).1
        = .err 400 ("Offer letter PDF is required for " ++
          (if "Accepted" = "Accepted" then "acceptance" else "conditional offer")
          ++ " decisions") ∨
     (make_decision (exState (exApp "Forwarded to University" none) exDocsOk)
        exUniStaff "ip" "now" 5 "Accepted" "" none id [] true).1
        = .err 400 "Offer letter must be a PDF file") ∧
    (make_decision (exState (exApp "Forwarded to University" none) exDocsOk)
        exUniStaff "ip" "now" 5 "Accepted" "" none id [] true).2
      = exState (exApp "Forwarded to University" none) exDocsOk :=
  make_decision_offer_letter_validation _ exUniStaff "ip" "now" 5 "Accepted" ""
    none id [] true (by decide) (by simp) (Or.inl rfl)

/-- On a document whose stage-1 outcome is not `approved`, the
University-Staff precondition block of `verify_document` always
early-returns an error. -/
theorem uniVerifyGate_err_of_unverified (s : State) (actor : UserRow)
    (document : DocumentRow) (hdoc : document.verified ≠ some true) :
    ∃ code msg, uniVerifyGate s actor document = some (.err code msg) := by
  unfold uniVerifyGate
  split
  · exact ⟨404, _, rfl⟩
  · split
    · split
      · exact ⟨403, _, rfl⟩
      · split
        · exact ⟨403, _, rfl⟩
        · split
          · exact ⟨403, _, rfl⟩
          · exact ⟨403, _, rfl⟩
    · exact ⟨403, _, rfl⟩

/-- C4.  A review of a document whose stage-1 outcome is not approved
(`verified` is `NULL` or `false`) never touches any document's stage-2
record, whatever the actor's role; and for University Staff — the one
role whose review writes stage 2 — the call always fails. -/
theorem verify_document_stage2_requires_stage1 (s : State) (actor : UserRow)
    (ip : String) (documentId : Nat) (action : String) (notes : Option String)
    (h1 : ∀ d ∈ s.documents, d.documentId = documentId → d.verified ≠ some true) :
    ((verify_document s actor ip documentId action notes).2.documents.map
        (fun d => (d.uniVerified, d.uniVerificationNotes, d.uniVerifiedBy))
      = s.documents.map fun d => (d.uniVerified, d.uniVerificationNotes, d.uniVerifiedBy)) ∧
    (actor.roleId = 4 →
      (verify_document s actor ip documentId action notes).1.isSuccess = false) := by
  unfold verify_document
  by_cases hr : actor.roleId = 1 ∨ actor.roleId = 2 ∨ actor.roleId = 3 ∨
      actor.roleId = 4
  · rw [if_neg (not_not_intro hr)]
    split
    · exact ⟨rfl, fun _ => rfl⟩
    · rename_i document hd
      have hdocver : document.verified ≠ some true := by
        refine h1 document (List.mem_of_find?_eq_some hd) ?_
        have := List.find?_some hd
        simpa using this
      split
      · exact ⟨rfl, fun _ => rfl⟩
      · rename_i st hs
        split
        · exact ⟨rfl, fun _ => rfl⟩
        · rename_i h3
          by_cases h4 : actor.roleId = 4
          · rw [if_pos h4]
            obtain ⟨code, msg, hg⟩ := uniVerifyGate_err_of_unverified s actor
              document hdocver
            rw [hg]
            exact ⟨rfl, fun _ => rfl⟩
          · rw [if_neg h4]
            have hs1 : actor.roleId = 1 ∨ actor.roleId = 2 ∨ actor.roleId = 3 := by
              tauto
            refine ⟨?_, fun h => absurd h h4⟩
            simp only [State.addNotification, State.addAudit, State.updateDocuments]
            split
            · dsimp only
              apply map_proj_map_ite
              intro d
              rfl
            · exact absurd hs1 (by assumption)
  · rw [if_pos hr]
    exact ⟨rfl, fun h4 => absurd (by tauto) hr⟩

/-- Closed instance of C4: the bound University-Staff actor attempting to
approve a stage-1-rejected document on the fixture store. -/
theorem verify_document_stage2_requires_stage1_witness :
    ((verify_document (exState (exApp "Forwarded to University" none)
          [exDoc 1 "Passport" (some false) none]) exUniStaff "ip" 1 "approve"
          none).2.documents.map
        (fun d => (d.uniVerified, d.uniVerificationNotes, d.uniVerifiedBy))
      = (exState (exApp "Forwarded to University" none)
          [exDoc 1 "Passport" (some false) none]).documents.map
          fun d => (d.uniVerified, d.uniVerificationNotes, d.uniVerifiedBy)) ∧
    (exUniStaff.roleId = 4 →
      (verify_document (exState (exApp "Forwarded to University" none)
          [exDoc 1 "Passport" (some false) none]) exUniStaff "ip" 1 "approve"
          none).1.isSuccess = false) :=
  verify_document_stage2_requires_stage1
    (exState (exApp "Forwarded to University" none)
      [exDoc 1 "Passport" (some false) none]) exUniStaff "ip" 1 "approve" none
    (by decide)

/-- Closed instance of C3: round-tripping a 20-byte two-block payload
through the vault (identity block permutation, zero IV). -/
theorem decrypt_document_encrypt_document_witness :
    Vault.decrypt_document id
      (Vault.encrypt_document id (List.replicate 16 (0 : Vault.Byte)) exPayload).1
      (Vault.encrypt_document id (List.replicate 16 (0 : Vault.Byte)) exPayload).2
      = some exPayload :=
  Vault.decrypt_document_encrypt_document id id (fun _ h => h) (fun _ _ => rfl)
    (List.replicate 16 (0 : Vault.Byte)) (by simp) exPayload

/-- C8.  A successful forward sets the status to `Forwarded to
University`; when the prior status was `Decision: Conditional` or the
missing-documents re-review state the decision fields are cleared, and
on a forward from any other status (e.g. `In Review`) they are left
untouched. -/
theorem forward_application_reforward_clears (s : State) (actor : UserRow)
    (ip now : String) (applicationId : Nat) (a : ApplicationRow)
    (st : StudentRow) (stuUser : UserRow) (uni : UniversityRow)
    (hrole : actor.roleId = 1 ∨ actor.roleId = 2 ∨ actor.roleId = 3)
    (happ : s.applications.find? (fun x => x.applicationId == applicationId)
      = some a)
    (hst : s.students.find? (fun x => x.studentId == a.studentId) = some st)
    (hu : s.users.find? (fun x => x.userId == st.userId) = some stuUser)
    (huni : s.universities.find? (fun x => x.universityId == a.universityId)
      = some uni)
    (hown : actor.roleId = 3 → a.counsellorId = some actor.userId ∨
      st.assignedCounsellorId = some actor.userId)
    (hm : missingDocuments (docsFor s applicationId) = [])
    (hv : unverifiedStage1 (docsFor s applicationId) = []) :
    (forward_application s actor ip now applicationId).1
      = .ok 200 "Application forwarded to university successfully" ∧
    (a.status = "Decision: Conditional" ∨
        a.status = "Missing Documents - In Review" →
      ((forward_application s actor ip now applicationId).2.applications.find?
          (fun x => x.applicationId == applicationId)).map
          (fun x => (x.status, x.decisionType, x.decisionNotes, x.decisionDate))
        = some ("Forwarded to University", none, none, none)) ∧
    (¬ (a.status = "Decision: Conditional" ∨
        a.status = "Missing Documents - In Review") →
      ((forward_application s actor ip now applicationId).2.applications.find?
          (fun x => x.applicationId == applicationId)).map
          (fun x => (x.status, x.decisionType, x.decisionNotes, x.decisionDate))
        = some ("Forwarded to University", a.decisionType, a.decisionNotes,
            a.decisionDate)) := by
  unfold forward_application
  rw [if_neg (not_not_intro hrole)]
  simp only [happ, hst, hu, huni]
  rw [if_neg (by rintro ⟨h3, hno⟩; exact hno (hown h3))]
  rw [if_neg (by simp [hm])]
  rw [if_neg (by simp [hv])]
  refine ⟨by cases uni.portalUserId <;> rfl, fun hre => ?_, fun hre => ?_⟩
  · simp only [hre, if_true, State.addAudit, State.addNotification,
      State.updateApplications]
    have := find?_map_ite (fun x => x.applicationId == applicationId)
      (fun a' =>
        { a' with
          status := "Forwarded to University"
          decisionType := none
          decisionNotes := none
          decisionDate := none
          counsellorNotes := some ((a'.counsellorNotes.getD "") ++
            (" [" ++ (if a.status = "Decision: Conditional" ∨
                a.status = "Missing Documents - In Review" then "Re-forwarded"
              else "Forwarded") ++ " to University by " ++ actor.fullName ++
              " (" ++ actor.roleName ++ ") on " ++ now ++ "]")) })
      (fun x hx => hx) s.applications
    cases hport : uni.portalUserId <;>
      simp only [State.addNotification, hre, if_true] at this ⊢ <;>
      rw [this, happ] <;> rfl
  · simp only [hre, if_false, State.addAudit, State.addNotification,
      State.updateApplications]
    have := find?_map_ite (fun x => x.applicationId == applicationId)
      (fun a' =>
        { a' with
          status := "Forwarded to University"
          counsellorNotes := some ((a'.counsellorNotes.getD "") ++
            (" [" ++ (if a.status = "Decision: Conditional" ∨
                a.status = "Missing Documents - In Review" then "Re-forwarded"
              else "Forwarded") ++ " to University by " ++ actor.fullName ++
              " (" ++ actor.roleName ++ ") on " ++ now ++ "]")) })
      (fun x hx => hx) s.applications
    cases hport : uni.portalUserId <;>
      simp only [State.addNotification, hre, if_false] at this ⊢ <;>
      rw [this, happ] <;> rfl

/-- Closed instance of C8: re-forwarding the fixture application from
`Decision: Conditional` with fully stage-1-approved documents. -/
theorem forward_application_reforward_clears_witness :
    (forward_application
        (exState (exApp "Decision: Conditional" (some "Conditional")) exDocsOk)
        exAdmin "ip" "now" 5).1
      = .ok 200 "Application forwarded to university successfully" ∧
    ((exApp "Decision: Conditional" (some "Conditional")).status
        = "Decision: Conditional" ∨
      (exApp "Decision: Conditional" (some "Conditional")).status
        = "Missing Documents - In Review" →
      ((forward_application
          (exState (exApp "Decision: Conditional" (some "Conditional")) exDocsOk)
          exAdmin "ip" "now" 5).2.applications.find?
          (fun x => x.applicationId == 5)).map
          (fun x => (x.status, x.decisionType, x.decisionNotes, x.decisionDate))
        = some ("Forwarded to University", none, none, none)) ∧
    (¬ ((exApp "Decision: Conditional" (some "Conditional")).status
        = "Decision: Conditional" ∨
      (exApp "Decision: Conditional" (some "Conditional")).status
        = "Missing Documents - In Review") →
      ((forward_application
          (exState (exApp "Decision: Conditional" (some "Conditional")) exDocsOk)
          exAdmin "ip" "now" 5).2.applications.find?
          (fun x => x.applicationId == 5)).map
          (fun x => (x.status, x.decisionType, x.decisionNotes, x.decisionDate))
        = some ("Forwarded to University",
            (exApp "Decision: Conditional" (some "Conditional")).decisionType,
            (exApp "Decision: Conditional" (some "Conditional")).decisionNotes,
            (exApp "Decision: Conditional" (some "Conditional")).decisionDate)) :=
  forward_application_reforward_clears
    (exState (exApp "Decision: Conditional" (some "Conditional")) exDocsOk)
    exAdmin "ip" "now" 5 (exApp "Decision: Conditional" (some "Conditional"))
    exStudent exStudentUser exUniversity (by decide) (by decide) (by decide)
    (by decide) (by decide) (by decide) (by decide) (by decide)

/-- Counterexample to C1 as stated.  On the fixture store whose
documents are `exDocsDup` — all four required types present, but the
first Passport row has stage-1 outcome rejected — `forward` succeeds,
because the gate folds the rows into a per-`doc_type` dict in which the
later Passport row overwrites the earlier one.  So "forward succeeds iff
… every uploaded document has stage-1 outcome approved" is false: here
forward succeeds while an uploaded document is not approved. -/
theorem forward_succeeds_despite_unapproved_duplicate :
    (forward_application (exState (exApp "In Review" none) exDocsDup)
        exAdmin "ip" "now" 5).1.isSuccess = true ∧
    ((docsFor (exState (exApp "In Review" none) exDocsDup) 5).all
        fun d => d.verified == some true) = false ∧
    missingDocuments (docsFor (exState (exApp "In Review" none) exDocsDup) 5)
      = [] := by
  decide

/-- C1 (amended).  For an authorized actor and resolvable application,
`forward` succeeds iff no required document type is missing and the
per-type folded stage-1 status (`verified` of the last row of each
uploaded type, free-form `Other` types included) is approved for every
type; otherwise it fails with a 400 listing the missing (resp. not
stage-1-approved) document types and the store — in particular the
application's status — is unchanged. -/
theorem forward_application_gating (s : State) (actor : UserRow)
    (ip now : String) (applicationId : Nat) (a : ApplicationRow)
    (st : StudentRow) (stuUser : UserRow) (uni : UniversityRow)
    (hrole : actor.roleId = 1 ∨ actor.roleId = 2 ∨ actor.roleId = 3)
    (happ : s.applications.find? (fun x => x.applicationId == applicationId)
      = some a)
    (hst : s.students.find? (fun x => x.studentId == a.studentId) = some st)
    (hu : s.users.find? (fun x => x.userId == st.userId) = some stuUser)
    (huni : s.universities.find? (fun x => x.universityId == a.universityId)
      = some uni)
    (hown : actor.roleId = 3 → a.counsellorId = some actor.userId ∨
      st.assignedCounsellorId = some actor.userId) :
    ((forward_application s actor ip now applicationId).1.isSuccess = true ↔
      (missingDocuments (docsFor s applicationId) = [] ∧
       unverifiedStage1 (docsFor s applicationId) = [])) ∧
    (missingDocuments (docsFor s applicationId) ≠ [] →
      (forward_application s actor ip now applicationId).1
        = .errDocs 400 "Cannot forward application. Missing required documents"
          (missingDocuments (docsFor s applicationId)) ∧
      (forward_application s actor ip now applicationId).2 = s) ∧
    (missingDocuments (docsFor s applicationId) = [] →
      unverifiedStage1 (docsFor s applicationId) ≠ [] →
      (forward_application s actor ip now applicationId).1
        = .errDocs 400 "Cannot forward application. All documents (including \"Other\" documents) must be verified by counsellor before forwarding"
          (unverifiedStage1 (docsFor s applicationId)) ∧
      (forward_application s actor ip now applicationId).2 = s) := by
  unfold forward_application
  rw [if_neg (not_not_intro hrole)]
  simp only [happ, hst, hu, huni]
  rw [if_neg (by rintro ⟨h3, hno⟩; exact hno (hown h3))]
  by_cases hm : missingDocuments (docsFor s applicationId) = []
  · rw [if_neg (by simp [hm])]
    by_cases hv : unverifiedStage1 (docsFor s applicationId) = []
    · rw [if_neg (by simp [hv])]
      refine ⟨?_, fun hc => absurd hm hc, fun _ hc => absurd hv hc⟩
      simp [Response.isSuccess, hm, hv]
    · rw [if_pos hv]
      refine ⟨?_, fun hc => absurd hm hc, fun _ _ => ⟨rfl, rfl⟩⟩
      simp [Response.isSuccess, hv]
  · rw [if_pos hm]
    refine ⟨?_, fun _ => ⟨rfl, rfl⟩, fun hc => absurd hc hm⟩
    simp [Response.isSuccess, hm]

/-- Closed instance of C1 (amended) on the fixture store with all four
required documents stage-1 approved. -/
theorem forward_application_gating_witness :
    ((forward_application (exState (exApp "In Review" none) exDocsOk)
        exAdmin "ip" "now" 5).1.isSuccess = true ↔
      (missingDocuments (docsFor (exState (exApp "In Review" none) exDocsOk) 5)
          = [] ∧
       unverifiedStage1 (docsFor (exState (exApp "In Review" none) exDocsOk) 5)
          = [])) ∧
    (missingDocuments (docsFor (exState (exApp "In Review" none) exDocsOk) 5)
        ≠ [] →
      (forward_application (exState (exApp "In Review" none) exDocsOk)
          exAdmin "ip" "now" 5).1
        = .errDocs 400 "Cannot forward application. Missing required documents"
          (missingDocuments (docsFor (exState (exApp "In Review" none) exDocsOk) 5)) ∧
      (forward_application (exState (exApp "In Review" none) exDocsOk)
          exAdmin "ip" "now" 5).2
        = exState (exApp "In Review" none) exDocsOk) ∧
    (missingDocuments (docsFor (exState (exApp "In Review" none) exDocsOk) 5)
        = [] →
      unverifiedStage1 (docsFor (exState (exApp "In Review" none) exDocsOk) 5)
        ≠ [] →
      (forward_application (exState (exApp "In Review" none) exDocsOk)
          exAdmin "ip" "now" 5).1
        = .errDocs 400 "Cannot forward application. All documents (including \"Other\" documents) must be verified by counsellor before forwarding"
          (unverifiedStage1 (docsFor (exState (exApp "In Review" none) exDocsOk) 5)) ∧
      (forward_application (exState (exApp "In Review" none) exDocsOk)
          exAdmin "ip" "now" 5).2
        = exState (exApp "In Review" none) exDocsOk) :=
  forward_application_gating (exState (exApp "In Review" none) exDocsOk)
    exAdmin "ip" "now" 5 (exApp "In Review" none) exStudent exStudentUser
    exUniversity (by decide) (by decide) (by decide) (by decide) (by decide)
    (by decide)

/-- Counterexample to C2 as stated.  On the fixture store whose
documents are `exDocsDup` — all four required types present, but the
first Passport row has stage-2 outcome rejected — the bound
University-Staff actor's decide(Accepted) succeeds, because the gate
folds the rows into a per-`doc_type` dict in which the later Passport
row overwrites the earlier one.  So "decide succeeds iff … every
document has stage-2 outcome approved" is false: here decide succeeds
while a document of the application is not stage-2 approved. -/
theorem decide_succeeds_despite_unapproved_duplicate :
    (make_decision (exState (exApp "Forwarded to University" none) exDocsDup)
        exUniStaff "ip" "now" 5 "Accepted" ""
        (some ("offer.pdf", [Vault.mkByte 1])) id
        (List.replicate 16 (0 : Vault.Byte)) true).1.isSuccess = true ∧
    ((docsFor (exState (exApp "Forwarded to University" none) exDocsDup) 5).all
        fun d => d.uniVerified == some true) = false ∧
    missingDocuments
        (docsFor (exState (exApp "Forwarded to University" none) exDocsDup) 5)
      = [] := by
  decide

/-- Characterization of the University-Staff decision gate: it passes
(returns `none`) exactly when the application is forwarded, belongs to
the staff member's university, no required type is missing, and the
per-type folded stage-2 statuses satisfy the decision-type-specific
check; and whenever it trips, the reply it returns is an error. -/
theorem uniStaffDecisionGate_characterization (s : State) (actor : UserRow)
    (application : ApplicationRow) (applicationId : Nat)
    (decisionType : String) (university : UniversityRow)
    (huni : s.universities.find? (fun x => x.portalUserId == some actor.userId)
      = some university) :
    (uniStaffDecisionGate s actor application applicationId decisionType = none ↔
      (application.status = "Forwarded to University" ∧
       application.universityId = university.universityId ∧
       missingDocuments (docsFor s applicationId) = [] ∧
       ((decisionType = "Accepted" ∨ decisionType = "Conditional") →
         unverifiedStage2 (docsFor s applicationId) = []) ∧
       ((decisionType = "Rejected" ∨ decisionType = "Missing Documents") →
         pendingStage2 (docsFor s applicationId) = []))) ∧
    (∀ r, uniStaffDecisionGate s actor application applicationId decisionType
        = some r → r.isSuccess = false) := by
  unfold uniStaffDecisionGate
  by_cases hfwd : application.status = "Forwarded to University"
  · rw [if_neg (not_not_intro hfwd)]
    simp only [huni]
    by_cases hmatch : application.universityId = university.universityId
    · rw [if_neg (not_not_intro hmatch)]
      by_cases hm : missingDocuments (docsFor s applicationId) = []
      · rw [if_neg (by simp [hm])]
        by_cases hac : (decisionType = "Accepted" ∨ decisionType = "Conditional") ∧
            unverifiedStage2 (docsFor s applicationId) ≠ []
        · rw [if_pos hac]
          constructor
          · exact iff_of_false (by simp) fun hc => hac.2 (hc.2.2.2.1 hac.1)
          · intro r hr
            cases hr
            rfl
        · rw [if_neg hac]
          by_cases hrm : (decisionType = "Rejected" ∨
              decisionType = "Missing Documents") ∧
              pendingStage2 (docsFor s applicationId) ≠ []
          · rw [if_pos hrm]
            constructor
            · exact iff_of_false (by simp) fun hc => hrm.2 (hc.2.2.2.2 hrm.1)
            · intro r hr
              cases hr
              rfl
          · rw [if_neg hrm]
            constructor
            · refine iff_of_true rfl ⟨hfwd, hmatch, hm, fun h => ?_, fun h => ?_⟩
              · by_cases hu2 : unverifiedStage2 (docsFor s applicationId) = []
                · exact hu2
                · exact absurd ⟨h, hu2⟩ hac
              · by_cases hp2 : pendingStage2 (docsFor s applicationId) = []
                · exact hp2
                · exact absurd ⟨h, hp2⟩ hrm
            · intro r hr
              cases hr
      · rw [if_pos (by simp [hm])]
        constructor
        · exact iff_of_false (by simp) fun hc => hm hc.2.2.1
        · intro r hr
          cases hr
          rfl
    · rw [if_pos hmatch]
      constructor
      · exact iff_of_false (by simp) fun hc => hmatch hc.2.1
      · intro r hr
        cases hr
        rfl
  · rw [if_pos hfwd]
    constructor
    · exact iff_of_false (by simp) fun hc => hfwd hc.1
    · intro r hr
      cases hr
      rfl

/-- C2 (amended).  For the bound University-Staff actor on a resolvable
application: decide(Accepted|Conditional) with a PDF offer letter
succeeds iff the application is `Forwarded to University`, belongs to
the staff member's university, no required type is missing, and the
per-type folded stage-2 status (`uni_verified` of the last row of each
uploaded type, `Other` types included) is approved for every type;
decide(Rejected|Missing Documents) instead requires that no per-type
folded stage-2 status is still pending (NULL). -/
theorem make_decision_uniStaff_gating (s : State) (actor : UserRow)
    (ip now : String) (applicationId : Nat) (decisionNotes : String)
    (E : List Vault.Byte → List Vault.Byte) (iv : List Vault.Byte)
    (application : ApplicationRow) (university : UniversityRow)
    (hrole : actor.roleId = 4)
    (happ : s.applications.find? (fun x => x.applicationId == applicationId)
      = some application)
    (huni : s.universities.find? (fun x => x.portalUserId == some actor.userId)
      = some university) :
    (∀ decisionType fn bytes,
      (decisionType = "Accepted" ∨ decisionType = "Conditional") →
      strEndsWith (strToLower fn) ".pdf" = true →
      ((make_decision s actor ip now applicationId decisionType decisionNotes
          (some (fn, bytes)) E iv true).1.isSuccess = true ↔
        (application.status = "Forwarded to University" ∧
         application.universityId = university.universityId ∧
         missingDocuments (docsFor s applicationId) = [] ∧
         unverifiedStage2 (docsFor s applicationId) = []))) ∧
    (∀ decisionType offerLetterFile,
      (decisionType = "Rejected" ∨ decisionType = "Missing Documents") →
      ((make_decision s actor ip now applicationId decisionType decisionNotes
          offerLetterFile E iv true).1.isSuccess = true ↔
        (application.status = "Forwarded to University" ∧
         application.universityId = university.universityId ∧
         missingDocuments (docsFor s applicationId) = [] ∧
         pendingStage2 (docsFor s applicationId) = []))) := by
  constructor
  · intro dt fn bytes hdt hpdf
    have hvalid : dt = "Accepted" ∨ dt = "Rejected" ∨ dt = "Conditional" ∨
        dt = "Missing Documents" := by
      rcases hdt with h | h <;> simp [h]
    unfold make_decision
    rw [if_neg (not_not_intro (Or.inr (Or.inr hrole)))]
    rw [if_neg (not_not_intro hvalid)]
    rw [if_neg (by rintro ⟨-, h⟩; exact Option.noConfusion h)]
    rw [if_neg (by rintro ⟨-, h⟩; simp [Option.any, hpdf] at h)]
    simp only [happ]
    rw [if_pos hrole]
    obtain ⟨hiff, herr⟩ := uniStaffDecisionGate_characterization s actor
      application applicationId dt university huni
    cases hg : uniStaffDecisionGate s actor application applicationId dt with
    | some r =>
      refine iff_of_false (by simp [herr r hg]) fun hc => ?_
      have : uniStaffDecisionGate s actor application applicationId dt = none :=
        hiff.mpr ⟨hc.1, hc.2.1, hc.2.2.1, fun _ => hc.2.2.2,
          fun h => by rcases hdt with rfl | rfl <;> rcases h with h2 | h2 <;>
            simp at h2⟩
      rw [hg] at this
      exact Option.noConfusion this
    | none =>
      have hc := hiff.mp hg
      exact iff_of_true rfl ⟨hc.1, hc.2.1, hc.2.2.1, hc.2.2.2.1 hdt⟩
  · intro dt offerLetterFile hdt
    have hvalid : dt = "Accepted" ∨ dt = "Rejected" ∨ dt = "Conditional" ∨
        dt = "Missing Documents" := by
      rcases hdt with h | h <;> simp [h]
    have hnac : ¬ (dt = "Accepted" ∨ dt = "Conditional") := by
      rcases hdt with rfl | rfl <;> rintro (h | h) <;> simp at h
    unfold make_decision
    rw [if_neg (not_not_intro (Or.inr (Or.inr hrole)))]
    rw [if_neg (not_not_intro hvalid)]
    rw [if_neg (by rintro ⟨h2, -⟩; exact hnac h2)]
    rw [if_neg (by rintro ⟨h2, -⟩; exact hnac h2)]
    simp only [happ]
    rw [if_pos hrole]
    obtain ⟨hiff, herr⟩ := uniStaffDecisionGate_characterization s actor
      application applicationId dt university huni
    cases hg : uniStaffDecisionGate s actor application applicationId dt with
    | some r =>
      refine iff_of_false (by simp [herr r hg]) fun hc => ?_
      have : uniStaffDecisionGate s actor application applicationId dt = none :=
        hiff.mpr ⟨hc.1, hc.2.1, hc.2.2.1, fun h => absurd h hnac,
          fun _ => hc.2.2.2⟩
      rw [hg] at this
      exact Option.noConfusion this
    | none =>
      have hc := hiff.mp hg
      exact iff_of_true rfl ⟨hc.1, hc.2.1, hc.2.2.1, hc.2.2.2.2 hdt⟩

/-- Closed instance of C2 (amended): the bound staff member's
decide(Accepted) with a PDF offer letter on the fixture store with all
stage-2 approvals in place. -/
theorem make_decision_uniStaff_gating_witness :
    (make_decision (exState (exApp "Forwarded to University" none) exDocsOk)
        exUniStaff "ip" "now" 5 "Accepted" ""
        (some ("offer.pdf", [Vault.mkByte 1])) id
        (List.replicate 16 (0 : Vault.Byte)) true).1.isSuccess = true ↔
      ((exApp "Forwarded to University" none).status
          = "Forwarded to University" ∧
       (exApp "Forwarded to University" none).universityId
          = exUniversity.universityId ∧
       missingDocuments
          (docsFor (exState (exApp "Forwarded to University" none) exDocsOk) 5)
          = [] ∧
       unverifiedStage2
          (docsFor (exState (exApp "Forwarded to University" none) exDocsOk) 5)
          = []) :=
  (make_decision_uniStaff_gating
      (exState (exApp "Forwarded to University" none) exDocsOk) exUniStaff
      "ip" "now" 5 "" id (List.replicate 16 (0 : Vault.Byte))
      (exApp "Forwarded to University" none) exUniversity (by decide)
      (by decide) (by decide)).1
    "Accepted" "offer.pdf" [Vault.mkByte 1] (Or.inl rfl) (by decide)

/-- A prefix of a string is a prefix of any extension of it. -/
theorem strStartsWith_extend (a r p : String)
    (h : strStartsWith a p = true) : strStartsWith (a ++ r) p = true := by
  simp only [strStartsWith, String.data_append, List.isPrefixOf_iff_prefix] at h ⊢
  exact h.trans ⟨r.data, rfl⟩

/-- Handler `make_decision` always preserves the decision-record invariant: the
row it writes carries a `Decision:` status or the missing-documents
re-review status together with its decision fields. -/
theorem make_decision_preserves_decisionClean (s : State) (actor : UserRow)
    (ip now : String) (applicationId : Nat) (decisionType decisionNotes : String)
    (offerLetterFile : Option (String × List Vault.Byte))
    (E : List Vault.Byte → List Vault.Byte) (iv : List Vault.Byte)
    (ledgerOk : Bool)
    (hclean : ∀ a ∈ s.applications, decisionClean a = true) :
    ∀ a' ∈ (make_decision s actor ip now applicationId decisionType
        decisionNotes offerLetterFile E iv ledgerOk).2.applications,
      decisionClean a' = true := by
  intro a' ha'
  unfold make_decision at ha'
  repeat' split at ha'
  all_goals try exact hclean a' ha'
  all_goals
    simp only [State.addAudit, State.addNotification, State.updateApplications]
      at ha'
  all_goals rcases List.mem_map.mp ha' with ⟨a0, ha0, rfl⟩
  all_goals by_cases hmatch : (a0.applicationId == applicationId) = true
  all_goals try (rw [if_neg hmatch]; exact hclean a0 ha0)
  all_goals rw [if_pos hmatch]
  all_goals simp [decisionClean,
    strStartsWith_extend "Decision: " decisionType "Decision:" (by decide)]

/-- Rows of an `UPDATE ... WHERE` all satisfy the invariant when the
untouched rows did and the rewritten row does. -/
theorem mem_map_update_clean (l : List ApplicationRow) (applicationId : Nat)
    (f : ApplicationRow → ApplicationRow)
    (hclean : ∀ a ∈ l, decisionClean a = true)
    (hf : ∀ a ∈ l, (a.applicationId == applicationId) = true →
      decisionClean (f a) = true) :
    ∀ a' ∈ l.map
        (fun a => if (a.applicationId == applicationId) = true then f a else a),
      decisionClean a' = true := by
  intro a' ha'
  rcases List.mem_map.mp ha' with ⟨x, hx, rfl⟩
  by_cases hmatch : (x.applicationId == applicationId) = true
  · rw [if_pos hmatch]
    exact hf x hx hmatch
  · rw [if_neg hmatch]
    exact hclean x hx

/-- Handler `forward_application` preserves the decision-record invariant
provided the application being forwarded is not re-forwarded out of
`Decision: Accepted` / `Decision: Rejected` (for those two statuses the
handler does not clear the decision fields). -/
theorem forward_preserves_decisionClean (s : State) (actor : UserRow)
    (ip now : String) (applicationId : Nat) (a0 : ApplicationRow)
    (happ : s.applications.find? (fun x => x.applicationId == applicationId)
      = some a0)
    (huniq : ∀ x ∈ s.applications, x.applicationId = applicationId → x = a0)
    (hstat : a0.status = "Decision: Conditional" ∨
      a0.status = "Missing Documents - In Review" ∨
      strStartsWith a0.status "Decision:" = false)
    (hclean : ∀ a ∈ s.applications, decisionClean a = true) :
    ∀ a' ∈ (forward_application s actor ip now applicationId).2.applications,
      decisionClean a' = true := by
  intro a' ha'
  unfold forward_application at ha'
  by_cases hrole : ¬ (actor.roleId = 1 ∨ actor.roleId = 2 ∨ actor.roleId = 3)
  · rw [if_pos hrole] at ha'
    exact hclean a' ha'
  · rw [if_neg hrole] at ha'
    simp only [happ] at ha'
    rcases hstq : s.students.find? (fun x => x.studentId == a0.studentId)
      with _ | st
    · simp only [hstq] at ha'
      exact hclean a' ha'
    · simp only [hstq] at ha'
      rcases huq : s.users.find? (fun x => x.userId == st.userId) with _ | stuUser
      · simp only [huq] at ha'
        exact hclean a' ha'
      · simp only [huq] at ha'
        rcases hunq : s.universities.find?
            (fun x => x.universityId == a0.universityId) with _ | uni
        · simp only [hunq] at ha'
          exact hclean a' ha'
        · simp only [hunq] at ha'
          by_cases hown : actor.roleId = 3 ∧ ¬ (a0.counsellorId = some actor.userId ∨
              st.assignedCounsellorId = some actor.userId)
          · rw [if_pos hown] at ha'
            exact hclean a' ha'
          · rw [if_neg hown] at ha'
            by_cases hm : missingDocuments (docsFor s applicationId) ≠ []
            · rw [if_pos hm] at ha'
              exact hclean a' ha'
            · rw [if_neg hm] at ha'
              by_cases hv : unverifiedStage1 (docsFor s applicationId) ≠ []
              · rw [if_pos hv] at ha'
                exact hclean a' ha'
              · rw [if_neg hv] at ha'
                by_cases hre : a0.status = "Decision: Conditional" ∨
                    a0.status = "Missing Documents - In Review"
                · simp only [hre, if_true, State.addAudit, State.addNotification,
                    State.updateApplications] at ha'
                  cases hport : uni.portalUserId <;>
                    simp only [hport, State.addNotification] at ha' <;>
                    exact mem_map_update_clean _ _ _ hclean
                      (fun x hx hmatch => by simp [decisionClean]) a' ha'
                · simp only [hre, if_false, State.addAudit, State.addNotification,
                    State.updateApplications] at ha'
                  cases hport : uni.portalUserId <;>
                    simp only [hport, State.addNotification] at ha' <;>
                    exact mem_map_update_clean _ _ _ hclean
                      (fun x hx hmatch => by
                        have hxa : x = a0 := huniq x hx (by simpa using hmatch)
                        subst hxa
                        have hsw : strStartsWith x.status "Decision:" = false := by
                          rcases hstat with h | h | h
                          · exact absurd (Or.inl h) hre
                          · exact absurd (Or.inr h) hre
                          · exact h
                        have hmd : x.status ≠ "Missing Documents - In Review" :=
                          fun h => hre (Or.inr h)
                        have h0 := hclean x hx
                        simp [decisionClean, hsw, hmd, beq_iff_eq] at h0
                        simp [decisionClean, h0]) a' ha'

/-- Handler `update_application_status` preserves the decision-record invariant
provided the free-text status written is itself a `Decision:` status or
the re-review state, or the targeted rows carry no decision record. -/
theorem update_status_preserves_decisionClean (s : State) (actor : UserRow)
    (ip : String) (applicationId : Nat) (st notes : String)
    (hcond : strStartsWith st "Decision:" = true ∨
      st = "Missing Documents - In Review" ∨
      (∀ x ∈ s.applications, x.applicationId = applicationId →
        x.decisionType = none ∧ x.decisionNotes = none ∧ x.decisionDate = none))
    (hclean : ∀ a ∈ s.applications, decisionClean a = true) :
    ∀ a' ∈ (update_application_status s actor ip applicationId (some st)
        notes).2.applications, decisionClean a' = true := by
  intro a' ha'
  unfold update_application_status at ha'
  by_cases hrole : ¬ (actor.roleId = 1 ∨ actor.roleId = 2 ∨ actor.roleId = 3)
  · rw [if_pos hrole] at ha'
    exact hclean a' ha'
  · rw [if_neg hrole] at ha'
    by_cases hempty : (some st : Option String) = none ∨
        (some st : Option String) = some ""
    · rw [if_pos hempty] at ha'
      exact hclean a' ha'
    · rw [if_neg hempty] at ha'
      simp only [State.updateApplications, State.addAudit, Option.getD_some]
        at ha'
      refine mem_map_update_clean _ _ _ hclean (fun x hx hmatch => ?_) a' ha'
      rcases hcond with hsw | rfl | hfields
      · simp [decisionClean, hsw]
      · simp [decisionClean]
      · have h := hfields x hx (by simpa using hmatch)
        simp [decisionClean, h]

/-- Counterexample to C5 as stated.  On the fixture store the invariant
holds everywhere, the application stands at `Decision: Accepted` with
its decision record set, and all documents are stage-1 approved; the
handler does not block forwarding from that status and only clears
decision fields for `Decision: Conditional` / the missing-documents
state — so after this forward the status is `Forwarded to University`
while the decision record is still populated, breaking the invariant. -/
theorem decision_invariant_broken_by_forward :
    ((exState (exApp "Decision: Accepted" (some "Accepted"))
        exDocsOk).applications.all decisionClean) = true ∧
    (forward_application
        (exState (exApp "Decision: Accepted" (some "Accepted")) exDocsOk)
        exAdmin "ip" "now" 5).1.isSuccess = true ∧
    ((forward_application
        (exState (exApp "Decision: Accepted" (some "Accepted")) exDocsOk)
        exAdmin "ip" "now" 5).2.applications.all decisionClean) = false := by
  decide

/-- C5 (amended).  `decide` always preserves the decision-record
invariant; `forward` preserves it unless the application is re-forwarded
out of `Decision: Accepted` / `Decision: Rejected` (whose decision
fields it does not clear); `updateStatus` preserves it when the written
free-text status is a `Decision:` status or the re-review state, or the
targeted application carries no decision record. -/
theorem decision_invariant_preservation :
    (∀ (s : State) (actor : UserRow) (ip now : String) (applicationId : Nat)
        (decisionType decisionNotes : String)
        (offerLetterFile : Option (String × List Vault.Byte))
        (E : List Vault.Byte → List Vault.Byte) (iv : List Vault.Byte)
        (ledgerOk : Bool),
      (∀ a ∈ s.applications, decisionClean a = true) →
      ∀ a' ∈ (make_decision s actor ip now applicationId decisionType
          decisionNotes offerLetterFile E iv ledgerOk).2.applications,
        decisionClean a' = true) ∧
    (∀ (s : State) (actor : UserRow) (ip now : String) (applicationId : Nat)
        (a0 : ApplicationRow),
      s.applications.find? (fun x => x.applicationId == applicationId)
        = some a0 →
      (∀ x ∈ s.applications, x.applicationId = applicationId → x = a0) →
      (a0.status = "Decision: Conditional" ∨
        a0.status = "Missing Documents - In Review" ∨
        strStartsWith a0.status "Decision:" = false) →
      (∀ a ∈ s.applications, decisionClean a = true) →
      ∀ a' ∈ (forward_application s actor ip now applicationId).2.applications,
        decisionClean a' = true) ∧
    (∀ (s : State) (actor : UserRow) (ip : String) (applicationId : Nat)
        (st notes : String),
      (strStartsWith st "Decision:" = true ∨
        st = "Missing Documents - In Review" ∨
        (∀ x ∈ s.applications, x.applicationId = applicationId →
          x.decisionType = none ∧ x.decisionNotes = none ∧
          x.decisionDate = none)) →
      (∀ a ∈ s.applications, decisionClean a = true) →
      ∀ a' ∈ (update_application_status s actor ip applicationId (some st)
          notes).2.applications, decisionClean a' = true) :=
  ⟨fun s actor ip now applicationId dt notes offer E iv ledgerOk hclean =>
      make_decision_preserves_decisionClean s actor ip now applicationId dt
        notes offer E iv ledgerOk hclean,
    fun s actor ip now applicationId a0 happ huniq hstat hclean =>
      forward_preserves_decisionClean s actor ip now applicationId a0 happ
        huniq hstat hclean,
    fun s actor ip applicationId st notes hcond hclean =>
      update_status_preserves_decisionClean s actor ip applicationId st notes
        hcond hclean⟩

/-- Closed instance of C5 (amended): an admin decide(Rejected) on the
fixture store keeps the single application row invariant-clean. -/
theorem decision_invariant_preservation_witness :
    decisionClean
      ((make_decision (exState (exApp "Forwarded to University" none) exDocsOk)
          exAdmin "ip" "now" 5 "Rejected" "" none id [] true).2.applications.getD
        0 (exApp "" none)) = true := by
  have h := decision_invariant_preservation.1
    (exState (exApp "Forwarded to University" none) exDocsOk) exAdmin "ip"
    "now" 5 "Rejected" "" none id [] true (by decide)
  exact h _ (by decide)

/-- Counterexample to C7 as stated.  Injecting a storage failure into
`make_decision`'s final `INSERT INTO audit_logs` (every earlier
statement having already committed, as `Database.execute_query` commits
per call): the request fails with a 500, yet the decision mutation is
already in place and no audit row exists — the state change is not
rolled back. -/
theorem ledger_failure_no_rollback :
    (make_decision (exState (exApp "Forwarded to University" none) exDocsOk)
        exAdmin "ip" "now" 5 "Rejected" "no" none id [] false).1
      = .err 500 "Failed to record decision" ∧
    ((make_decision (exState (exApp "Forwarded to University" none) exDocsOk)
        exAdmin "ip" "now" 5 "Rejected" "no" none id [] false).2.applications.map
        (·.status)) = ["Decision: Rejected"] ∧
    (make_decision (exState (exApp "Forwarded to University" none) exDocsOk)
        exAdmin "ip" "now" 5 "Rejected" "no" none id [] false).2.auditLogs
      = [] := by
  decide

/-- C7 (amended).  A successful decide appends exactly one audit-ledger
entry before returning success; but the ledger write is a separate
auto-committed statement: when it fails the handler returns a 500 while
the already-committed decision mutation persists unchanged — there is no
rollback, so the state change exists without its audit record. -/
theorem make_decision_ledger_commit (s : State) (actor : UserRow)
    (ip now : String) (applicationId : Nat)
    (decisionType decisionNotes : String)
    (E : List Vault.Byte → List Vault.Byte) (iv : List Vault.Byte)
    (application : ApplicationRow)
    (hrole : actor.roleId = 1 ∨ actor.roleId = 2)
    (hdt : decisionType = "Rejected" ∨ decisionType = "Missing Documents")
    (happ : s.applications.find? (fun x => x.applicationId == applicationId)
      = some application) :
    ((make_decision s actor ip now applicationId decisionType decisionNotes
        none E iv true).1 = .ok 200 "Decision recorded successfully" ∧
     (make_decision s actor ip now applicationId decisionType decisionNotes
        none E iv true).2.auditLogs.length = s.auditLogs.length + 1 ∧
     (make_decision s actor ip now applicationId decisionType decisionNotes
        none E iv true).2.auditLogs.take s.auditLogs.length = s.auditLogs) ∧
    ((make_decision s actor ip now applicationId decisionType decisionNotes
        none E iv false).1 = .err 500 "Failed to record decision" ∧
     (make_decision s actor ip now applicationId decisionType decisionNotes
        none E iv false).2.auditLogs = s.auditLogs ∧
     (make_decision s actor ip now applicationId decisionType decisionNotes
        none E iv false).2.applications
       = (make_decision s actor ip now applicationId decisionType
           decisionNotes none E iv true).2.applications) := by
  have hvalid : decisionType = "Accepted" ∨ decisionType = "Rejected" ∨
      decisionType = "Conditional" ∨ decisionType = "Missing Documents" := by
    rcases hdt with h | h <;> simp [h]
  have hnac : ¬ (decisionType = "Accepted" ∨ decisionType = "Conditional") := by
    rcases hdt with rfl | rfl <;> rintro (h | h) <;> simp at h
  have hn4 : ¬ actor.roleId = 4 := by
    rcases hrole with h | h <;> omega
  have hguard : actor.roleId = 1 ∨ actor.roleId = 2 ∨ actor.roleId = 4 := by
    tauto
  constructor
  · unfold make_decision
    rw [if_neg (not_not_intro hguard), if_neg (not_not_intro hvalid)]
    rw [if_neg (by rintro ⟨h, -⟩; exact hnac h)]
    rw [if_neg (by rintro ⟨h, -⟩; exact hnac h)]
    simp only [happ]
    rw [if_neg hn4]
    refine ⟨rfl, ?_, ?_⟩
    · simp [State.addAudit, State.updateApplications]
    · simp only [State.addAudit, State.updateApplications]
      exact List.take_left _ _
  · have hno : ¬ ((decisionType = "Accepted" ∨ decisionType = "Conditional") ∧
        (none : Option (String × List Vault.Byte)) = none) := by
      rintro ⟨h, -⟩
      exact hnac h
    have hnp : ¬ ((decisionType = "Accepted" ∨ decisionType = "Conditional") ∧
        (Option.any (fun fc => ! strEndsWith (strToLower fc.1) ".pdf")
          (none : Option (String × List Vault.Byte))) = true) := by
      rintro ⟨h, -⟩
      exact hnac h
    unfold make_decision
    rw [if_neg (not_not_intro hguard), if_neg (not_not_intro hvalid),
      if_neg hno, if_neg hnp]
    rw [if_neg (not_not_intro hguard), if_neg (not_not_intro hvalid),
      if_neg hno, if_neg hnp]
    simp only [happ]
    rw [if_neg hn4]
    refine ⟨?_, ?_, ?_⟩ <;>
      simp [State.addAudit, State.updateApplications]

/-- Closed instance of C7 (amended): admin decide(Rejected) on the
fixture store, with and without the injected ledger failure. -/
theorem make_decision_ledger_commit_witness :
    ((make_decision (exState (exApp "Forwarded to University" none) exDocsOk)
        exAdmin "ip" "now" 5 "Rejected" "no" none id [] true).1
      = .ok 200 "Decision recorded successfully" ∧
     (make_decision (exState (exApp "Forwarded to University" none) exDocsOk)
        exAdmin "ip" "now" 5 "Rejected" "no" none id [] true).2.auditLogs.length
      = (exState (exApp "Forwarded to University" none) exDocsOk).auditLogs.length
        + 1 ∧
     (make_decision (exState (exApp "Forwarded to University" none) exDocsOk)
        exAdmin "ip" "now" 5 "Rejected" "no" none id [] true).2.auditLogs.take
        (exState (exApp "Forwarded to University" none) exDocsOk).auditLogs.length
      = (exState (exApp "Forwarded to University" none) exDocsOk).auditLogs) ∧
    ((make_decision (exState (exApp "Forwarded to University" none) exDocsOk)
        exAdmin "ip" "now" 5 "Rejected" "no" none id [] false).1
      = .err 500 "Failed to record decision" ∧
     (make_decision (exState (exApp "Forwarded to University" none) exDocsOk)
        exAdmin "ip" "now" 5 "Rejected" "no" none id [] false).2.auditLogs
      = (exState (exApp "Forwarded to University" none) exDocsOk).auditLogs ∧
     (make_decision (exState (exApp "Forwarded to University" none) exDocsOk)
        exAdmin "ip" "now" 5 "Rejected" "no" none id [] false).2.applications
       = (make_decision (exState (exApp "Forwarded to University" none) exDocsOk)
           exAdmin "ip" "now" 5 "Rejected" "no" none id [] true).2.applications) :=
  make_decision_ledger_commit
    (exState (exApp "Forwarded to University" none) exDocsOk) exAdmin "ip"
    "now" 5 "Rejected" "no" id [] (exApp "Forwarded to University" none)
    (by decide) (by decide) (by decide)

/-- Counterexample to C9 as stated.  Admin reassigns the fixture
student's counsellor from user 40 to user 41: the call succeeds, the
notifications go to the student (30) and the new counsellor (41) only —
the previous counsellor (40) receives zero notifications, not exactly
one as claimed. -/
theorem reassign_prev_counsellor_unnotified :
    (reassign_counsellor (exState (exApp "In Review" none) exDocsOk) exAdmin
        "ip" "now" 1 (some 41)).1 = .ok 200 "Counsellor assigned successfully" ∧
    ((reassign_counsellor (exState (exApp "In Review" none) exDocsOk) exAdmin
        "ip" "now" 1 (some 41)).2.notifications.filter
        (fun n => n.userId == 40)).length = 0 ∧
    ((reassign_counsellor (exState (exApp "In Review" none) exDocsOk) exAdmin
        "ip" "now" 1 (some 41)).2.notifications.map (·.userId)) = [30, 41] := by
  decide

/-- C9 (amended).  When an Admin/SuperAdmin reassigns a student's
counsellor from `prevId` to `cid`, exactly one audit entry is appended;
its action is `Reassign Counsellor` and its detail identifies the
previous counsellor; exactly two notifications are appended — one to the
student and one to the new counsellor — and the previous counsellor
receives none. -/
theorem reassign_counsellor_effects (s : State) (actor : UserRow)
    (ip now : String) (studentId cid prevId : Nat) (counsellor : UserRow)
    (studentInfo : StudentRow) (studentUser : UserRow)
    (hrole : actor.roleId = 1 ∨ actor.roleId = 2)
    (hc : s.users.find? (fun u => u.userId == cid && u.roleId == 3)
      = some counsellor)
    (hstu : s.students.find? (fun x => x.studentId == studentId)
      = some studentInfo)
    (hsu : s.users.find? (fun u => u.userId == studentInfo.userId)
      = some studentUser)
    (hprev : studentInfo.assignedCounsellorId = some prevId)
    (huid : studentInfo.userId ≠ 0) :
    (reassign_counsellor s actor ip now studentId (some cid)).1
      = .ok 200 "Counsellor assigned successfully" ∧
    (reassign_counsellor s actor ip now studentId (some cid)).2.auditLogs
      = s.auditLogs ++
        [⟨actor.userId, "Reassign Counsellor", "students", studentId, ip,
          "Student ID: " ++ toString studentId ++ ", Student Name: " ++
            studentUser.fullName ++ ", Counsellor ID: " ++ toString cid ++
            ", Counsellor Name: " ++ counsellor.fullName ++ ", Assigned by: " ++
            actor.fullName ++ " (" ++ actor.roleName ++ "), Date: " ++ now ++
            (", Previous Counsellor ID: " ++ toString prevId ++
              ", Previous Counsellor Name: " ++
              (((s.users.find? (fun u => u.userId == prevId)).map
                (·.fullName)).getD "None"))⟩] ∧
    (reassign_counsellor s actor ip now studentId (some cid)).2.notifications
      = s.notifications ++
        [⟨studentInfo.userId, "Counsellor Assigned",
          "Counsellor " ++ counsellor.fullName ++
            " has been assigned to your application by " ++ actor.fullName ++
            ".", actor.userId⟩,
         ⟨cid, "New Student Assignment",
          "You have been assigned to student " ++ studentUser.fullName ++
            " by " ++ actor.fullName ++ ".", actor.userId⟩] ∧
    (prevId ≠ studentInfo.userId → prevId ≠ cid →
      ((reassign_counsellor s actor ip now studentId
          (some cid)).2.notifications.filter
        (fun n => n.userId == prevId)).length
        = (s.notifications.filter (fun n => n.userId == prevId)).length) := by
  unfold reassign_counsellor
  rw [if_neg (not_not_intro hrole)]
  simp only [hc, hstu, hsu, hprev]
  rw [if_pos (by simp : (some prevId ≠ none))]
  rw [if_pos huid]
  refine ⟨by first | rfl | trivial, ?_, ?_, ?_⟩
  · simp [State.addAudit, State.addNotification, State.updateStudents]
  · simp [State.addAudit, State.addNotification, State.updateStudents]
  · intro hp1 hp2
    simp [State.addAudit, State.addNotification, State.updateStudents,
      List.filter_append, hp1, hp2, Ne.symm hp1, Ne.symm hp2]

/-- Closed instance of C9 (amended) on the fixture store (reassignment
from counsellor 40 to counsellor 41). -/
theorem reassign_counsellor_effects_witness :
    (reassign_counsellor (exState (exApp "In Review" none) exDocsOk) exAdmin
        "ip" "now" 1 (some 41)).1 = .ok 200 "Counsellor assigned successfully" ∧
    (reassign_counsellor (exState (exApp "In Review" none) exDocsOk) exAdmin
        "ip" "now" 1 (some 41)).2.auditLogs
      = (exState (exApp "In Review" none) exDocsOk).auditLogs ++
        [⟨exAdmin.userId, "Reassign Counsellor", "students", 1, "ip",
          "Student ID: " ++ toString 1 ++ ", Student Name: " ++
            exStudentUser.fullName ++ ", Counsellor ID: " ++ toString 41 ++
            ", Counsellor Name: " ++ exCoun2.fullName ++ ", Assigned by: " ++
            exAdmin.fullName ++ " (" ++ exAdmin.roleName ++ "), Date: " ++
            "now" ++
            (", Previous Counsellor ID: " ++ toString 40 ++
              ", Previous Counsellor Name: " ++
              ((((exState (exApp "In Review" none) exDocsOk).users.find?
                (fun u => u.userId == 40)).map (·.fullName)).getD "None"))⟩] ∧
    (reassign_counsellor (exState (exApp "In Review" none) exDocsOk) exAdmin
        "ip" "now" 1 (some 41)).2.notifications
      = (exState (exApp "In Review" none) exDocsOk).notifications ++
        [⟨exStudent.userId, "Counsellor Assigned",
          "Counsellor " ++ exCoun2.fullName ++
            " has been assigned to your application by " ++ exAdmin.fullName ++
            ".", exAdmin.userId⟩,
         ⟨41, "New Student Assignment",
          "You have been assigned to student " ++ exStudentUser.fullName ++
            " by " ++ exAdmin.fullName ++ ".", exAdmin.userId⟩] ∧
    ((40 : Nat) ≠ exStudent.userId → (40 : Nat) ≠ 41 →
      ((reassign_counsellor (exState (exApp "In Review" none) exDocsOk) exAdmin
          "ip" "now" 1 (some 41)).2.notifications.filter
        (fun n => n.userId == 40)).length
        = ((exState (exApp "In Review" none) exDocsOk).notifications.filter
          (fun n => n.userId == 40)).length) :=
  reassign_counsellor_effects (exState (exApp "In Review" none) exDocsOk)
    exAdmin "ip" "now" 1 41 40 exCoun2 exStudent exStudentUser (by decide)
    (by decide) (by decide) (by decide) (by decide) (by decide)
